/-
Verification development for the simulation core of `term_dungeon_rpg.py`
(repository `terminal-rpg-game`).

The Python source is shallowly embedded into Lean:
* Python `random.Random` draws are modeled as reads from an explicit stream
  of natural numbers (`RNG`).  The program uses three independent random
  sources and the embedding keeps them separate:
  - the per-map seeded generator `GameMap.rng = random.Random(seed)`,
    modeled as `cfg.seedFn seed`;
  - the session generator `Game.global_rng`, modeled as the `sG` stream;
  - the module-level `random` (used by `Monster.__init__` and
    `Summon.__init__`), modeled as the `sg` stream.
* Python machine floats are modeled exactly: `fl` below rounds an exact
  rational to the nearest IEEE-754 binary64 value (ties to even, unbounded
  exponent — every float computed by this program is far from the
  overflow/subnormal range, where this coincides with IEEE-754).  Exact
  rationals are carried as unnormalized `Int` fractions (`Q`) so that all
  arithmetic is kernel-reducible.  The values produced by `random.random()`
  draws are abstracted to a 1/1000 grid; everything computed from them
  follows the float operations of the source.
* Mutating methods become state-passing functions; fallible operations
  return `Option`/`Bool` results.
* Render metadata (glyph characters, curses color pairs, display-name
  strings of monsters/summons) is omitted: the spec classifies it as
  cosmetic and no claim mentions it.  Draws of the underlying generators
  that produce it (e.g. the summon-name `random.choice`) are still
  consumed, so stream positions stay faithful.
-/
import Mathlib

namespace TermDungeon

/-! ## Exact rational arithmetic without gcd

`Q` is an exact rational carried as an unnormalized fraction with positive
denominator.  (Mathlib's `ℚ` normalizes through `Nat.gcd`, which the kernel
cannot reduce; these fractions keep every concrete theorem checkable by
`decide`.) -/

structure Q where
  n : Int
  d : Int
  deriving Repr

def qI (k : Int) : Q := ⟨k, 1⟩

def qNeg (a : Q) : Q := ⟨-a.n, a.d⟩

def qAdd (a b : Q) : Q := ⟨a.n * b.d + b.n * a.d, a.d * b.d⟩

def qSub (a b : Q) : Q := ⟨a.n * b.d - b.n * a.d, a.d * b.d⟩

def qMul (a b : Q) : Q := ⟨a.n * b.n, a.d * b.d⟩

/-- Exact division; division by zero never occurs in the embedded code
paths (denominators are entity max-hp values and powers of two). -/
def qDiv (a b : Q) : Q :=
  if b.n < 0 then ⟨-(a.n * b.d), a.d * (-b.n)⟩ else ⟨a.n * b.d, a.d * b.n⟩

def qLe (a b : Q) : Bool := a.n * b.d ≤ b.n * a.d

def qLt (a b : Q) : Bool := a.n * b.d < b.n * a.d

def qFloor (a : Q) : Int := a.n.fdiv a.d

/-! ## Random draw streams

A `RNG` is the stream of future draws of one Python generator; an
exhausted stream keeps yielding 0.  `randint a b` models
`Random.randint(a, b)` (inclusive bounds).  Python raises `ValueError`
when `b < a`; that can only happen in `_create_rooms_in_leaves` on
degenerate BSP leaves (side length < 3) and no theorem below exercises
such a leaf, so the model returns a total junk value there instead. -/

abbrev RNG := List Nat

def rngHead (r : RNG) : Nat := r.headD 0

def rngTail (r : RNG) : RNG := r.tail

def randint (a b : Int) (r : RNG) : Int × RNG :=
  (a + (rngHead r : Int) % (b + 1 - a), rngTail r)

/-- `Random.random()`: a draw in `[0, 1)`, abstracted to a 1/1000 grid. -/
def randQ (r : RNG) : Q × RNG :=
  (⟨(rngHead r % 1000 : ℕ), 1000⟩, rngTail r)

/-- `Random.choice(l)`; `l` is nonempty at every call site. -/
def choice {α : Type} (l : List α) (dflt : α) (r : RNG) : α × RNG :=
  (l.getD (rngHead r % l.length) dflt, rngTail r)

/-- `Random.sample(l, 2)`: two elements at distinct positions. -/
def sample2 {α : Type} (l : List α) (dflt : α) (r : RNG) : (α × α) × RNG :=
  let i := rngHead r % l.length
  let r1 := rngTail r
  let j0 := rngHead r1 % (l.length - 1)
  let j := if j0 < i then j0 else j0 + 1
  ((l.getD i dflt, l.getD j dflt), rngTail r1)

/-! ## IEEE-754 binary64 model

`fl q` rounds the exact value `q` to the nearest binary64 float, ties to
even.  The binade search saturates outside `2^±1200`, far beyond binary64's
exponent range and beyond every value this program computes. -/

/-- Climb while `2·p ≤ a`, doubling `p`; returns `(e, 2^e)` with
`2^e ≤ a < 2^(e+1)` (given `p = 2^e ≤ a` initially). -/
def binadeUp : Nat → Int → Q → Q → Int × Q
  | 0, e, p, _ => (e, p)
  | fuel + 1, e, p, a =>
    let p2 : Q := ⟨2 * p.n, p.d⟩
    if qLe p2 a then binadeUp fuel (e + 1) p2 a else (e, p)

/-- Descend while `a < p`, halving `p`; returns `(e, 2^e)` with
`2^e ≤ a < 2^(e+1)`. -/
def binadeDown : Nat → Int → Q → Q → Int × Q
  | 0, e, p, _ => (e, p)
  | fuel + 1, e, p, a =>
    if qLt a p then binadeDown fuel (e - 1) ⟨p.n, 2 * p.d⟩ a else (e, p)

/-- For `a > 0`: `(e, 2^e)` with `2^e ≤ a < 2^(e+1)`. -/
def binade (a : Q) : Int × Q :=
  if qLe (qI 1) a then binadeUp 1200 0 (qI 1) a else binadeDown 1200 0 (qI 1) a

/-- Round an exact rational to the nearest integer, ties to even. -/
def roundHE (q : Q) : Int :=
  let n := qFloor q
  let frac := qSub q (qI n)
  if qLt frac ⟨1, 2⟩ then n
  else if qLt ⟨1, 2⟩ frac then n + 1
  else if n % 2 = 0 then n else n + 1

def twoPow52 : Int := 4503599627370496

def flPos (a : Q) : Q :=
  let ep := binade a
  let m := roundHE (qDiv (qMul a (qI twoPow52)) ep.2)
  qDiv (qMul (qI m) ep.2) (qI twoPow52)

def fl (q : Q) : Q :=
  if q.n = 0 then qI 0 else if q.n < 0 then qNeg (flPos (qNeg q)) else flPos q

def addD (x y : Q) : Q := fl (qAdd x y)

def subD (x y : Q) : Q := fl (qSub x y)

def mulD (x y : Q) : Q := fl (qMul x y)

def divD (x y : Q) : Q := fl (qDiv x y)

/-- Python float `max`: returns the larger value (ties: same value). -/
def maxD (x y : Q) : Q := if qLt x y then y else x

/-- Python `int()` on a float value: truncation toward zero. -/
def truncD (q : Q) : Int := if 0 ≤ q.n then qFloor q else -qFloor (qNeg q)

/-- The binary64 value of the float literal `0.1`. -/
def d01 : Q := fl ⟨1, 10⟩

/-- The binary64 value of the float literal `0.3`. -/
def d03 : Q := fl ⟨3, 10⟩

/-- The binary64 value of the float literal `0.8`. -/
def d08 : Q := fl ⟨8, 10⟩

/-- The binary64 value of the float literal `0.05`. -/
def d005 : Q := fl ⟨1, 20⟩

/-- The binary64 value of the float literal `1.2`. -/
def d12 : Q := fl ⟨6, 5⟩

/-- `Game.combat`, monster-attacks-player case:
`defense_effectiveness = max(0.3, 1.0 - (attacker.level - 1) * 0.1)`;
`effective_defense = int(defender.get_defense() * defense_effectiveness)`,
with every float operation rounded to binary64. -/
def effectiveDefenseF (defense level : Int) : Int :=
  truncD (mulD (qI defense) (maxD d03 (subD (qI 1) (mulD (qI (level - 1)) d01))))

/-! ## Items (`Item.__init__` and helpers)

An `Item` stores the persisted fields `x, y, item_id, qty, level`; the
attributes `name`, `power`, `stackable` that `Item.__init__` derives from
`item_id`/`level` are modeled as functions. -/

structure Item where
  x : Int
  y : Int
  itemId : String
  qty : Int
  level : Int
  deriving DecidableEq, Repr

def inventorySize : Nat := 10

def itemStackable (itemId : String) : Bool :=
  itemId = "health_potion" ∨ itemId = "defense_potion" ∨
    itemId = "hp_boost_potion" ∨ itemId = "summon"

def itemPower (itemId : String) (level : Int) : Int :=
  if itemId = "health_potion" then 10 + (level - 1) * 5
  else if itemId = "defense_potion" then 5 + (level - 1) * 2
  else if itemId = "hp_boost_potion" then 15 + (level - 1) * 10
  else if itemId = "summon" then level
  else if itemId = "sword" then 2
  else if itemId = "shield" then 1
  else 0

def itemName (itemId : String) (level : Int) : String :=
  if itemId = "health_potion" then "Health Potion Lv." ++ toString level
  else if itemId = "defense_potion" then "Defense Potion Lv." ++ toString level
  else if itemId = "hp_boost_potion" then "Vitality Potion Lv." ++ toString level
  else if itemId = "summon" then "Summon Scroll Lv." ++ toString level
  else if itemId = "sword" then "Iron Sword"
  else if itemId = "shield" then "Wooden Shield"
  else "Unknown"

/-- Whether `Item.__init__` installs an effect callback for this id
(`self.effect` is `None` for unknown ids). -/
def itemHasEffect (itemId : String) : Bool :=
  itemId = "health_potion" ∨ itemId = "defense_potion" ∨
    itemId = "hp_boost_potion" ∨ itemId = "summon" ∨
    itemId = "sword" ∨ itemId = "shield"

/-! ## Player (`Player` class)

`temp_buffs` is a Python dict `{kind: (amount, remaining_steps)}`; a dict
preserves insertion order so it is modeled as an ordered association
list. -/

structure PlayerSt where
  x : Int
  y : Int
  hp : Int
  maxHp : Int
  atk : Int
  defVal : Int
  inventory : List Item
  depthReached : Int
  monstersKilled : Int
  itemsCollected : Int
  equippedWeapon : Option Item
  equippedArmor : Option Item
  tempBuffs : List (String × Int × Int)
  deriving DecidableEq, Repr

/-- `Player.__init__`: Entity("Adventurer", hp 30, atk 4, def 1). -/
def mkPlayer (x y : Int) : PlayerSt :=
  { x := x, y := y, hp := 30, maxHp := 30, atk := 4, defVal := 1,
    inventory := [], depthReached := 1, monstersKilled := 0,
    itemsCollected := 0, equippedWeapon := none, equippedArmor := none,
    tempBuffs := [] }

/-- `temp_buffs.get(kind, (0, 0))[0]`. -/
def buffAmount (buffs : List (String × Int × Int)) (kind : String) : Int :=
  match buffs.find? (fun b => b.1 = kind) with
  | some b => b.2.1
  | none => 0

/-- Python dict assignment `temp_buffs[kind] = (amount, steps)`: replaces
the entry in place when the key exists (dict keys are unique), otherwise
appends. -/
def buffSet (buffs : List (String × Int × Int)) (kind : String)
    (amount steps : Int) : List (String × Int × Int) :=
  match buffs with
  | [] => [(kind, amount, steps)]
  | b :: rest =>
    if b.1 = kind then (kind, amount, steps) :: rest
    else b :: buffSet rest kind amount steps

def itemPowerOf (it : Item) : Int := itemPower it.itemId it.level

/-- `Player.get_attack`. -/
def getAttack (p : PlayerSt) : Int :=
  p.atk + (match p.equippedWeapon with | some w => itemPowerOf w | none => 0)
    + buffAmount p.tempBuffs "attack"

/-- `Player.get_defense`. -/
def getDefense (p : PlayerSt) : Int :=
  p.defVal + (match p.equippedArmor with | some a => itemPowerOf a | none => 0)
    + buffAmount p.tempBuffs "defense"

/-- `Player.get_max_hp`. -/
def getMaxHp (p : PlayerSt) : Int :=
  p.maxHp + buffAmount p.tempBuffs "hp"

/-- `Player.update_buffs`: decrement every buff's remaining steps, drop the
expired ones, report whether any expired. -/
def updateBuffs (p : PlayerSt) : PlayerSt × Bool :=
  let expired := p.tempBuffs.any (fun b => b.2.2 - 1 ≤ 0)
  let kept := p.tempBuffs.filterMap fun b =>
    if b.2.2 - 1 ≤ 0 then none else some (b.1, b.2.1, b.2.2 - 1)
  ({ p with tempBuffs := kept }, expired)

/-- `Entity.take_damage`: subtract, clamp at 0, report death
(`hp == 0` after clamping). -/
def takeDamageHp (hp damage : Int) : Int × Bool :=
  let h := max (hp - damage) 0
  (h, h = 0)

/-- First inventory slot matching `inv_item.item_id == item.item_id and
inv_item.stackable`, with the quantity merged in (`Player.add_item`'s
stacking scan). -/
def stackInto : List Item → Item → Option (List Item)
  | [], _ => none
  | slot :: rest, it =>
    if slot.itemId = it.itemId ∧ itemStackable slot.itemId then
      some ({ slot with qty := slot.qty + it.qty } :: rest)
    else (stackInto rest it).map (slot :: ·)

/-- `Player.add_item`. -/
def addItem (p : PlayerSt) (it : Item) : Bool × PlayerSt :=
  if p.inventory.length ≥ inventorySize then (false, p)
  else
    match stackInto p.inventory it with
    | some inv =>
      (true, { p with inventory := inv,
                      itemsCollected := p.itemsCollected + it.qty })
    | none =>
      (true, { p with inventory := p.inventory ++ [it],
                      itemsCollected := p.itemsCollected + it.qty })

/-- `Player.remove_item(item, qty)`.  Python removes by object identity;
the embedding addresses the inventory slot by index. -/
def removeItemAt (p : PlayerSt) (idx : Nat) (qty : Int) : PlayerSt :=
  match p.inventory.get? idx with
  | none => p
  | some it =>
    if itemStackable it.itemId then
      if it.qty - qty ≤ 0 then { p with inventory := p.inventory.eraseIdx idx }
      else { p with inventory := p.inventory.set idx { it with qty := it.qty - qty } }
    else { p with inventory := p.inventory.eraseIdx idx }

/-! ## Monsters and summons -/

structure Monster where
  eid : Nat
  x : Int
  y : Int
  monsterId : String
  level : Int
  hp : Int
  maxHp : Int
  atk : Int
  defVal : Int
  deriving DecidableEq, Repr

def monsterBaseHp (monsterId : String) : Int :=
  if monsterId = "orc" then 10 else if monsterId = "skeleton" then 8
  else if monsterId = "spider" then 4 else 5

def monsterBaseAtk (monsterId : String) : Int :=
  if monsterId = "orc" then 4 else if monsterId = "skeleton" then 3
  else if monsterId = "spider" then 3 else 2

def monsterBaseDef (monsterId : String) : Int :=
  if monsterId = "orc" then 1 else if monsterId = "skeleton" then 1 else 0

/-- `Monster.__init__`.  The level jitter comes from the module-level
`random` (`random.randint(-1, 2)`), i.e. the `g` stream — not from the
map's seeded generator.  `eid` models Python object identity. -/
def mkMonster (eid : Nat) (x y : Int) (monsterId : String) (depth : Int)
    (g : RNG) : Monster × RNG :=
  let jr := randint (-1) 2 g
  let level := max 1 (depth + jr.1)
  let bonus := level - 1
  let hp := monsterBaseHp monsterId + bonus * 2
  ({ eid := eid, x := x, y := y, monsterId := monsterId, level := level,
     hp := hp, maxHp := hp, atk := monsterBaseAtk monsterId + bonus,
     defVal := monsterBaseDef monsterId + bonus / 2 }, jr.2)

structure Summon where
  eid : Nat
  x : Int
  y : Int
  level : Int
  playerLevel : Int
  hp : Int
  maxHp : Int
  atk : Int
  defVal : Int
  deriving DecidableEq, Repr

/-- `Summon.__init__`.  One draw of the module-level `random`
(`random.choice(names)`) is consumed for the cosmetic name, which the
model omits. -/
def mkSummon (eid : Nat) (x y : Int) (level playerLevel : Int)
    (g : RNG) : Summon × RNG :=
  let hp := 15 + level * 8
  ({ eid := eid, x := x, y := y, level := level, playerLevel := playerLevel,
     hp := hp, maxHp := hp, atk := 3 + level * 2, defVal := 1 + level },
   rngTail g)

/-! ## Tile grid -/

def tileWall : Char := '#'

def tileFloor : Char := '.'

def tilePortal : Char := 'O'

def mapWidth : Int := 60

def mapHeight : Int := 40

/-- Python `range(a, b)`. -/
def intRange (a b : Int) : List Int :=
  (List.range (b - a).toNat).map (fun i => a + (i : Int))

/-- Direct indexing `tiles[y][x]` (call sites guarantee bounds). -/
def tileAt (tiles : List (List Char)) (x y : Int) : Char :=
  (tiles.getD y.toNat []).getD x.toNat '#'

/-- Bounds-guarded tile write; carve sites in the source guard with
`0 <= x < width and 0 <= y < height` before assigning. -/
def setTile (tiles : List (List Char)) (x y : Int) (c : Char) :
    List (List Char) :=
  if 0 ≤ x ∧ 0 ≤ y then
    match tiles.get? y.toNat with
    | some row => tiles.set y.toNat (row.set x.toNat c)
    | none => tiles
  else tiles

def wallGrid (width height : Int) : List (List Char) :=
  List.replicate height.toNat (List.replicate width.toNat tileWall)

structure Room where
  x1 : Int
  y1 : Int
  x2 : Int
  y2 : Int
  deriving DecidableEq, Repr

def defaultRoom : Room := ⟨0, 0, 0, 0⟩

structure GameMapSt where
  width : Int
  height : Int
  seed : Int
  tiles : List (List Char)
  monsters : List Monster
  items : List Item
  stairsDownPos : Option (Int × Int)
  playerStartPos : Option (Int × Int)
  portals : List (Int × Int × Int × Int)
  deriving DecidableEq, Repr

/-- `GameMap.get_tile` (wall outside bounds). -/
def getTileM (m : GameMapSt) (x y : Int) : Char :=
  if 0 ≤ x ∧ x < m.width ∧ 0 ≤ y ∧ y < m.height then tileAt m.tiles x y
  else tileWall

/-! ## BSP generation (`GameMap.generate_map` and helpers) -/

inductive BSP where
  | leaf (x y w h : Int)
  | node (x y w h : Int) (c1 c2 : BSP)
  deriving Repr

/-- `GameMap._split_node`; fuel counts remaining split levels
(`max_depth - depth`, initially 4).  The aspect tests `w > h * 1.25` /
`h > w * 1.25` are exact in binary64 for these magnitudes and are written
as the equivalent integer comparisons. -/
def splitNode : Nat → Int → Int → Int → Int → RNG → BSP × RNG
  | 0, x, y, w, h, s => (.leaf x y w h, s)
  | fuel + 1, x, y, w, h, s =>
    if w < 8 ∨ h < 6 then (.leaf x y w h, s)
    else
      let dir : Bool × RNG :=
        if 4 * w > 5 * h then (false, s)
        else if 4 * h > 5 * w then (true, s)
        else
          let rq := randQ s
          (qLt rq.1 ⟨1, 2⟩, rq.2)
      if dir.1 then
        let sp := randint (h / 3) (2 * h / 3) dir.2
        let r1 := splitNode fuel x y w sp.1 sp.2
        let r2 := splitNode fuel x (y + sp.1) w (h - sp.1) r1.2
        (.node x y w h r1.1 r2.1, r2.2)
      else
        let sp := randint (w / 3) (2 * w / 3) dir.2
        let r1 := splitNode fuel x y sp.1 h sp.2
        let r2 := splitNode fuel (x + sp.1) y (w - sp.1) h r1.2
        (.node x y w h r1.1 r2.1, r2.2)

/-- BSP tree with the room each leaf received (`node['room']`). -/
inductive RBSP where
  | leaf (room : Room)
  | node (c1 c2 : RBSP)
  deriving Repr

def carveRect (tiles : List (List Char)) (x1 y1 x2 y2 : Int) :
    List (List Char) :=
  (intRange y1 y2).foldl
    (fun t y => (intRange x1 x2).foldl (fun t2 x => setTile t2 x y tileFloor) t)
    tiles

/-- `GameMap._create_rooms_in_leaves` (padding = 1); returns the annotated
tree, the rooms in leaf (DFS) order, the carved tiles and the RNG. -/
def createRooms :
    BSP → List (List Char) → RNG → RBSP × List Room × List (List Char) × RNG
  | .leaf x y w h, tiles, s =>
    let rw := randint (w / 2) (w - 2) s
    let rh := randint (h / 2) (h - 2) rw.2
    let rx := randint 1 (w - rw.1 - 1) rh.2
    let ry := randint 1 (h - rh.1 - 1) rx.2
    let room : Room :=
      ⟨x + rx.1, y + ry.1, x + rx.1 + rw.1, y + ry.1 + rh.1⟩
    (.leaf room, [room], carveRect tiles room.x1 room.y1 room.x2 room.y2, ry.2)
  | .node _ _ _ _ c1 c2, tiles, s =>
    let r1 := createRooms c1 tiles s
    let r2 := createRooms c2 r1.2.2.1 r1.2.2.2
    (.node r1.1 r2.1, r1.2.1 ++ r2.2.1, r2.2.2.1, r2.2.2.2)

/-- `GameMap._get_random_room_from_subtree`: leaves return their room
without a draw; inner nodes draw `rng.choice` over the two children. -/
def subtreeRoom : RBSP → RNG → Room × RNG
  | .leaf room, s => (room, s)
  | .node c1 c2, s =>
    if rngHead s % 2 = 0 then subtreeRoom c1 (rngTail s)
    else subtreeRoom c2 (rngTail s)

/-- `GameMap._create_corridor_between_rooms`: random point in each room,
L-shaped corridor, orientation by a coin flip. -/
def carveCorridor (tiles : List (List Char)) (room1 room2 : Room)
    (s : RNG) : List (List Char) × RNG :=
  let px1 := randint room1.x1 (room1.x2 - 1) s
  let py1 := randint room1.y1 (room1.y2 - 1) px1.2
  let px2 := randint room2.x1 (room2.x2 - 1) py1.2
  let py2 := randint room2.y1 (room2.y2 - 1) px2.2
  let rq := randQ py2.2
  let x1 := px1.1
  let y1 := py1.1
  let x2 := px2.1
  let y2 := py2.1
  if qLt rq.1 ⟨1, 2⟩ then
    let t1 := (intRange (min x1 x2) (max x1 x2 + 1)).foldl
      (fun t x => setTile t x y1 tileFloor) tiles
    let t2 := (intRange (min y1 y2) (max y1 y2 + 1)).foldl
      (fun t y => setTile t x2 y tileFloor) t1
    (t2, rq.2)
  else
    let t1 := (intRange (min y1 y2) (max y1 y2 + 1)).foldl
      (fun t y => setTile t x1 y tileFloor) tiles
    let t2 := (intRange (min x1 x2) (max x1 x2 + 1)).foldl
      (fun t x => setTile t x y2 tileFloor) t1
    (t2, rq.2)

/-- `GameMap._connect_bsp_rooms`. -/
def connectBsp : RBSP → List (List Char) → RNG → List (List Char) × RNG
  | .leaf _, tiles, s => (tiles, s)
  | .node c1 c2, tiles, s =>
    let r1 := connectBsp c1 tiles s
    let r2 := connectBsp c2 r1.1 r1.2
    let g1 := subtreeRoom c1 r2.2
    let g2 := subtreeRoom c2 g1.2
    carveCorridor r2.1 g1.1 g2.1 g2.2

def hasFloorNeighbor (tiles : List (List Char)) (w h x y : Int) : Bool :=
  [((0 : Int), (1 : Int)), (1, 0), (0, -1), (-1, 0)].any fun d =>
    decide (0 ≤ x + d.1 ∧ x + d.1 < w ∧ 0 ≤ y + d.2 ∧ y + d.2 < h) &&
      decide (tileAt tiles (x + d.1) (y + d.2) = tileFloor)

/-- Player half of `GameMap._place_player_and_stairs`: up to 100 samples in
the first room, requiring a floor tile with a floor neighbor. -/
def placePlayerLoop :
    Nat → Room → List (List Char) → Int → Int → RNG →
      Option (Int × Int) × RNG
  | 0, _, _, _, _, s => (none, s)
  | fuel + 1, room, tiles, w, h, s =>
    let px := randint room.x1 (room.x2 - 1) s
    let py := randint room.y1 (room.y2 - 1) px.2
    if tileAt tiles px.1 py.1 = tileFloor ∧
        hasFloorNeighbor tiles w h px.1 py.1 = true then
      (some (px.1, py.1), py.2)
    else placePlayerLoop fuel room tiles w h py.2

/-- Stairs half of `GameMap._place_player_and_stairs`: up to 100 samples in
the last room, requiring a floor tile. -/
def placeStairsLoop :
    Nat → Room → List (List Char) → RNG → Option (Int × Int) × RNG
  | 0, _, _, s => (none, s)
  | fuel + 1, room, tiles, s =>
    let sx := randint room.x1 (room.x2 - 1) s
    let sy := randint room.y1 (room.y2 - 1) sx.2
    if tileAt tiles sx.1 sy.1 = tileFloor then (some (sx.1, sy.1), sy.2)
    else placeStairsLoop fuel room tiles sy.2

def occupiedByMonster (monsters : List Monster) (x y : Int) : Bool :=
  monsters.any fun m => decide (m.x = x ∧ m.y = y)

def occupiedByItem (items : List Item) (x y : Int) : Bool :=
  items.any fun i => decide (i.x = x ∧ i.y = y)

/-- Biome monster-type tables of `GameMap._generate_monsters`. -/
def monsterTypeFor (depth : Int) (s : RNG) : String × RNG :=
  let bi := (depth - 1) / 3
  if bi = 0 then choice ["goblin", "spider", "skeleton"] "goblin" s
  else if bi = 1 then choice ["skeleton", "spider", "orc"] "goblin" s
  else if bi = 2 then choice ["spider", "orc", "goblin"] "goblin" s
  else if bi = 3 then choice ["orc", "skeleton", "goblin"] "goblin" s
  else if bi = 4 then choice ["skeleton", "spider", "orc"] "goblin" s
  else choice ["orc", "skeleton", "spider", "goblin"] "goblin" s

/-- One monster's 20-try placement loop in `GameMap._generate_monsters`.
The seeded map generator is `s`; the module-level `random` consumed by
`Monster.__init__` is `g`. -/
def placeMonsterTry :
    Nat → Room → Int → List (List Char) → Option (Int × Int) →
      Option (Int × Int) → List Monster → RNG → RNG →
      List Monster × RNG × RNG
  | 0, _, _, _, _, _, monsters, s, g => (monsters, s, g)
  | fuel + 1, room, depth, tiles, ps, sd, monsters, s, g =>
    let mx := randint room.x1 (room.x2 - 1) s
    let my := randint room.y1 (room.y2 - 1) mx.2
    if tileAt tiles mx.1 my.1 = tileFloor ∧ ps ≠ some (mx.1, my.1) ∧
        sd ≠ some (mx.1, my.1) ∧
        occupiedByMonster monsters mx.1 my.1 = false then
      let ty := monsterTypeFor depth my.2
      let mk := mkMonster monsters.length mx.1 my.1 ty.1 depth g
      (monsters ++ [mk.1], ty.2, mk.2)
    else placeMonsterTry fuel room depth tiles ps sd monsters my.2 g

/-- The `for _ in range(monster_count)` loop of
`GameMap._generate_monsters`. -/
def monstersLoop :
    Nat → List Room → Int → List (List Char) → Option (Int × Int) →
      Option (Int × Int) → List Monster → RNG → RNG →
      List Monster × RNG × RNG
  | 0, _, _, _, _, _, monsters, s, g => (monsters, s, g)
  | n + 1, rooms, depth, tiles, ps, sd, monsters, s, g =>
    let rc := choice rooms defaultRoom s
    let pl := placeMonsterTry 20 rc.1 depth tiles ps sd monsters rc.2 g
    monstersLoop n rooms depth tiles ps sd pl.1 pl.2.1 pl.2.2

/-- `GameMap._generate_monsters`. -/
def generateMonsters (rooms : List Room) (depth : Int)
    (tiles : List (List Char)) (ps sd : Option (Int × Int))
    (s g : RNG) : List Monster × RNG × RNG :=
  let cnt := randint (depth + 2) (depth * 2 + 5) s
  monstersLoop cnt.1.toNat rooms depth tiles ps sd [] cnt.2 g

/-- One item's 20-try placement loop in `GameMap._generate_items`.
`mOcc` is the monster-occupancy check (`occupiedByMonster` of the placed
monsters, the only way `_generate_items` reads the monster list). -/
def placeItemTry :
    Nat → Room → Int → List (List Char) → Option (Int × Int) →
      Option (Int × Int) → (Int → Int → Bool) → List Item → RNG →
      List Item × RNG
  | 0, _, _, _, _, _, _, items, s => (items, s)
  | fuel + 1, room, depth, tiles, ps, sd, mOcc, items, s =>
    let ix := randint room.x1 (room.x2 - 1) s
    let iy := randint room.y1 (room.y2 - 1) ix.2
    if tileAt tiles ix.1 iy.1 = tileFloor ∧ ps ≠ some (ix.1, iy.1) ∧
        sd ≠ some (ix.1, iy.1) ∧ mOcc ix.1 iy.1 = false ∧
        occupiedByItem items ix.1 iy.1 = false then
      let lv := randint (-1) 1 iy.2
      let ty := choice ["health_potion", "defense_potion", "hp_boost_potion",
        "sword", "shield"] "health_potion" lv.2
      (items ++ [⟨ix.1, iy.1, ty.1, 1, max 1 (depth + lv.1)⟩], ty.2)
    else placeItemTry fuel room depth tiles ps sd mOcc items iy.2

def itemsLoop :
    Nat → List Room → Int → List (List Char) → Option (Int × Int) →
      Option (Int × Int) → (Int → Int → Bool) → List Item → RNG →
      List Item × RNG
  | 0, _, _, _, _, _, _, items, s => (items, s)
  | n + 1, rooms, depth, tiles, ps, sd, mOcc, items, s =>
    let rc := choice rooms defaultRoom s
    let pl := placeItemTry 20 rc.1 depth tiles ps sd mOcc items rc.2
    itemsLoop n rooms depth tiles ps sd mOcc pl.1 pl.2

/-- The summon-scroll 20-try placement loop in `GameMap._generate_items`. -/
def placeScrollTry :
    Nat → Room → Int → List (List Char) → Option (Int × Int) →
      Option (Int × Int) → (Int → Int → Bool) → List Item → RNG →
      List Item × RNG
  | 0, _, _, _, _, _, _, items, s => (items, s)
  | fuel + 1, room, depth, tiles, ps, sd, mOcc, items, s =>
    let sx := randint room.x1 (room.x2 - 1) s
    let sy := randint room.y1 (room.y2 - 1) sx.2
    if tileAt tiles sx.1 sy.1 = tileFloor ∧ mOcc sx.1 sy.1 = false ∧
        occupiedByItem items sx.1 sy.1 = false ∧
        sd ≠ some (sx.1, sy.1) ∧ ps ≠ some (sx.1, sy.1) then
      let maxLv := min 5 (max 1 (depth / 2 + 1))
      let lv1 := randint 1 maxLv sy.2
      let lvr : Int × RNG :=
        if depth > 10 then
          let lv2 := randint (maxLv / 2) maxLv lv1.2
          (max lv1.1 lv2.1, lv2.2)
        else (lv1.1, lv1.2)
      (items ++ [⟨sx.1, sy.1, "summon", 1, lvr.1⟩], lvr.2)
    else placeScrollTry fuel room depth tiles ps sd mOcc items sy.2

/-- `GameMap._generate_items`: the regular items, then the summon scroll
with probability 0.8 through depth 10, decaying below (float arithmetic,
clamped at 0.1). -/
def generateItems (rooms : List Room) (depth : Int)
    (tiles : List (List Char)) (ps sd : Option (Int × Int))
    (mOcc : Int → Int → Bool) (s : RNG) : List Item × RNG :=
  let cnt := randint 2 4 s
  let base := itemsLoop (cnt.1 + depth / 3).toNat rooms depth tiles ps sd
    mOcc [] cnt.2
  let chance : Q :=
    if depth ≤ 10 then d08
    else maxD d01 (subD ⟨1, 2⟩ (mulD (qI (depth - 10)) d005))
  let rq := randQ base.2
  if qLt rq.1 chance then
    let rc := choice rooms defaultRoom rq.2
    placeScrollTry 20 rc.1 depth tiles ps sd mOcc base.1 rc.2
  else (base.1, rq.2)

/-- One portal pair's 20-try placement loop in
`GameMap._generate_portals`. -/
def placePortalTry :
    Nat → Room → Room → List (List Char) → Option (Int × Int) →
      Option (Int × Int) → (Int → Int → Bool) → List Item →
      List (Int × Int × Int × Int) → RNG →
      List (List Char) × List (Int × Int × Int × Int) × RNG
  | 0, _, _, tiles, _, _, _, _, portals, s => (tiles, portals, s)
  | fuel + 1, room1, room2, tiles, ps, sd, mOcc, items, portals, s =>
    let px1 := randint room1.x1 (room1.x2 - 1) s
    let py1 := randint room1.y1 (room1.y2 - 1) px1.2
    let px2 := randint room2.x1 (room2.x2 - 1) py1.2
    let py2 := randint room2.y1 (room2.y2 - 1) px2.2
    let x1 := px1.1
    let y1 := py1.1
    let x2 := px2.1
    let y2 := py2.1
    if ps ≠ some (x1, y1) ∧ sd ≠ some (x1, y1) ∧ ps ≠ some (x2, y2) ∧
        sd ≠ some (x2, y2) ∧ mOcc x1 y1 = false ∧ mOcc x2 y2 = false ∧
        occupiedByItem items x1 y1 = false ∧
        occupiedByItem items x2 y2 = false then
      (setTile (setTile tiles x1 y1 tilePortal) x2 y2 tilePortal,
        portals ++ [(x1, y1, x2, y2)], py2.2)
    else placePortalTry fuel room1 room2 tiles ps sd mOcc items portals
      py2.2

def portalsLoop :
    Nat → List Room → List (List Char) → Option (Int × Int) →
      Option (Int × Int) → (Int → Int → Bool) → List Item →
      List (Int × Int × Int × Int) → RNG →
      List (List Char) × List (Int × Int × Int × Int) × RNG
  | 0, _, tiles, _, _, _, _, portals, s => (tiles, portals, s)
  | n + 1, rooms, tiles, ps, sd, mOcc, items, portals, s =>
    let pr := sample2 rooms defaultRoom s
    let pl := placePortalTry 20 pr.1.1 pr.1.2 tiles ps sd mOcc items
      portals pr.2
    portalsLoop n rooms pl.1 ps sd mOcc items pl.2.1 pl.2.2

/-- `GameMap._generate_portals`: skipped entirely with fewer than 3
rooms. -/
def generatePortals (rooms : List Room) (tiles : List (List Char))
    (ps sd : Option (Int × Int)) (mOcc : Int → Int → Bool)
    (items : List Item) (s : RNG) :
    List (List Char) × List (Int × Int × Int × Int) × RNG :=
  if rooms.length < 3 then (tiles, [], s)
  else
    let cnt := randint 1 2 s
    portalsLoop cnt.1.toNat rooms tiles ps sd mOcc items [] cnt.2

/-- `GameMap._create_fallback_map`: cross corridors plus two fixed rooms;
player start `(7,7)`, stairs `(width-7, height-7)`; no monsters, items or
portals (the generator returns immediately after this).  For maps too
small to contain the fixed coordinates Python would fault on the raw
`tiles[y][x]` assignments; the guarded `setTile` is used here and no
theorem exercises such a map. -/
def createFallbackMap (width height : Int) (tiles0 : List (List Char)) :
    List (List Char) × Option (Int × Int) × Option (Int × Int) :=
  let midX := width / 2
  let midY := height / 2
  let t1 := (intRange 5 (width - 5)).foldl
    (fun t x => setTile t x midY tileFloor) tiles0
  let t2 := (intRange 5 (height - 5)).foldl
    (fun t y => setTile t midX y tileFloor) t1
  let t3 := carveRect t2 5 5 15 12
  let t4 := carveRect t3 (width - 15) (height - 12) (width - 5) (height - 5)
  (t4, some (7, 7), some (width - 7, height - 7))

/-- `GameMap._can_reach_stairs`'s BFS loop: FIFO queue, visited set; the
fuel bounds the iteration count (each iteration pops one entry and at most
`4·width·height + 1` entries are ever enqueued), so the loop always runs
to completion. -/
def canReachAux (tiles : List (List Char)) (w h : Int)
    (goal : Int × Int) :
    Nat → List (Int × Int) → List (Int × Int) → Bool
  | 0, _, _ => false
  | _, [], _ => false
  | fuel + 1, c :: rest, visited =>
    if c = goal then true
    else if visited.any (fun v => v = c) then
      canReachAux tiles w h goal fuel rest visited
    else
      let visited2 := c :: visited
      let nbrs := [((0 : Int), (1 : Int)), (1, 0), (0, -1), (-1, 0)].filterMap
        fun d =>
          let nx := c.1 + d.1
          let ny := c.2 + d.2
          if (0 ≤ nx ∧ nx < w ∧ 0 ≤ ny ∧ ny < h) ∧
              (tileAt tiles nx ny = tileFloor ∨ tileAt tiles nx ny = tilePortal) ∧
              visited2.all (fun v => v ≠ (nx, ny)) then
            some (nx, ny)
          else none
      canReachAux tiles w h goal fuel (rest ++ nbrs) visited2

/-- `GameMap._can_reach_stairs`: breadth-first search from the player
start to the stairs over Floor/Portal tiles; `True` when either position
is unset.  This function is defined by the source but never called by
`generate_map`. -/
def canReachStairs (m : GameMapSt) : Bool :=
  match m.playerStartPos, m.stairsDownPos with
  | some p, some goal =>
    canReachAux m.tiles m.width m.height goal
      ((5 * (m.width * m.height)).toNat + 10) [p] []
  | _, _ => true

/-- Opaque seeding: `random.Random(seed)`'s future draws. -/
structure Config where
  seedFn : Int → RNG

/-- `GameMap.__init__` plus `GameMap.generate_map(depth)`.  `g` is the
module-level `random` stream (consumed only by `Monster.__init__`'s level
jitter).  Note: `generate_map` never invokes `_can_reach_stairs`. -/
def generateMap (cfg : Config) (width height seed depth : Int) (g : RNG) :
    GameMapSt × RNG :=
  let s0 := cfg.seedFn seed
  let tiles0 := wallGrid width height
  let bsp := splitNode 4 2 2 (width - 4) (height - 4) s0
  let cr := createRooms bsp.1 tiles0 bsp.2
  let rooms := cr.2.1
  let cn := connectBsp cr.1 cr.2.2.1 cr.2.2.2
  if rooms.length < 2 then
    let fb := createFallbackMap width height cn.1
    ({ width := width, height := height, seed := seed, tiles := fb.1,
       monsters := [], items := [], stairsDownPos := fb.2.2,
       playerStartPos := fb.2.1, portals := [] }, g)
  else
    let ps := placePlayerLoop 100 (rooms.getD 0 defaultRoom) cn.1 width
      height cn.2
    let sd := placeStairsLoop 100 (rooms.getLastD defaultRoom) cn.1 ps.2
    let mons := generateMonsters rooms depth cn.1 ps.1 sd.1 sd.2 g
    let its := generateItems rooms depth cn.1 ps.1 sd.1
      (occupiedByMonster mons.1) mons.2.1
    let ports := generatePortals rooms cn.1 ps.1 sd.1
      (occupiedByMonster mons.1) its.1 its.2
    ({ width := width, height := height, seed := seed, tiles := ports.1,
       monsters := mons.1, items := its.1, stairsDownPos := sd.1,
       playerStartPos := ps.1, portals := ports.2.1 }, mons.2.2)

/-! ## Entity movement (`Entity.move`) -/

/-- Collision view of another entity (position and liveness). -/
structure EV where
  x : Int
  y : Int
  alive : Bool
  deriving Repr

def evP (p : PlayerSt) : EV := ⟨p.x, p.y, decide (0 < p.hp)⟩

def evM (m : Monster) : EV := ⟨m.x, m.y, decide (0 < m.hp)⟩

def evS (s : Summon) : EV := ⟨s.x, s.y, decide (0 < s.hp)⟩

/-- `Entity.move`: `none` when the destination is out of bounds, a wall,
or occupied by another living entity; otherwise the new position. -/
def moveXY (x y dx dy : Int) (m : GameMapSt) (others : List EV) :
    Option (Int × Int) :=
  let nx := x + dx
  let ny := y + dy
  if 0 ≤ nx ∧ nx < m.width ∧ 0 ≤ ny ∧ ny < m.height ∧
      tileAt m.tiles nx ny ≠ tileWall then
    if others.any (fun e => e.alive ∧ e.x = nx ∧ e.y = ny) then none
    else some (nx, ny)
  else none

/-- First successful move from an ordered fallback list of step vectors. -/
def tryMovesXY (x y : Int) (moves : List (Int × Int)) (m : GameMapSt)
    (others : List EV) : Option (Int × Int) :=
  match moves with
  | [] => none
  | d :: rest =>
    match moveXY x y d.1 d.2 m others with
    | some p => some p
    | none => tryMovesXY x y rest m others

def signTo (src target : Int) : Int :=
  if target > src then 1 else if target < src then -1 else 0

/-! ## Game session state (`Game`) -/

inductive Tgt where
  | player
  | monsterRef (eid : Nat)
  | summonRef (eid : Nat)
  deriving DecidableEq, Repr

structure GameState where
  player : PlayerSt
  currentMap : GameMapSt
  dungeonDepth : Int
  turnCount : Int
  summons : List Summon
  gameOver : Bool
  /-- `Game.global_rng` draw stream. -/
  sG : RNG
  /-- Module-level `random` draw stream. -/
  sg : RNG
  /-- Source of fresh identities for summons created at runtime. -/
  nextEid : Nat
  deriving DecidableEq, Repr

def findMonster (st : GameState) (eid : Nat) : Option Monster :=
  st.currentMap.monsters.find? (fun m => m.eid = eid)

def setMonster (st : GameState) (m : Monster) : GameState :=
  { st with currentMap := { st.currentMap with
      monsters := st.currentMap.monsters.map fun x =>
        if x.eid = m.eid then m else x } }

def removeMonster (st : GameState) (eid : Nat) : GameState :=
  { st with currentMap := { st.currentMap with
      monsters := st.currentMap.monsters.filter (fun m => m.eid ≠ eid) } }

def findSummon (st : GameState) (eid : Nat) : Option Summon :=
  st.summons.find? (fun s => s.eid = eid)

def setSummon (st : GameState) (s : Summon) : GameState :=
  { st with summons := st.summons.map fun x =>
      if x.eid = s.eid then s else x }

def removeSummon (st : GameState) (eid : Nat) : GameState :=
  { st with summons := st.summons.filter (fun s => s.eid ≠ eid) }

def tgtAlive (st : GameState) (t : Tgt) : Bool :=
  match t with
  | .player => decide (0 < st.player.hp)
  | .monsterRef e => (findMonster st e).elim false (fun m => decide (0 < m.hp))
  | .summonRef e => (findSummon st e).elim false (fun s => decide (0 < s.hp))

/-! ## Combat (`Game.combat`) -/

/-- `Game.combat`: damage dispatch on the attacker/defender classes,
`take_damage` on the defender, and death handling (game over for the
player, list removal plus kill counter for monsters; dead summons are
pruned by the turn loop, not here). -/
def doCombat (st : GameState) (attacker defender : Tgt) : GameState :=
  let atkVal :=
    match attacker with
    | .player => getAttack st.player
    | .monsterRef e => (findMonster st e).elim 0 Monster.atk
    | .summonRef e => (findSummon st e).elim 0 Summon.atk
  let dmg :=
    match attacker, defender with
    | .monsterRef e, .player =>
      let lvl := (findMonster st e).elim 1 Monster.level
      max 1 (atkVal - effectiveDefenseF (getDefense st.player) lvl)
    | _, _ =>
      let dfn :=
        match defender with
        | .player => getDefense st.player
        | .monsterRef e => (findMonster st e).elim 0 Monster.defVal
        | .summonRef e => (findSummon st e).elim 0 Summon.defVal
      max 1 (atkVal - dfn)
  match defender with
  | .player =>
    let td := takeDamageHp st.player.hp dmg
    let st1 := { st with player := { st.player with hp := td.1 } }
    if td.2 then { st1 with gameOver := true } else st1
  | .monsterRef e =>
    match findMonster st e with
    | none => st
    | some m =>
      let td := takeDamageHp m.hp dmg
      let st1 := setMonster st { m with hp := td.1 }
      if td.2 then
        let st2 :=
          if attacker = .player then
            { st1 with player := { st1.player with
                monstersKilled := st1.player.monstersKilled + 1 } }
          else st1
        removeMonster st2 e
      else st1
  | .summonRef e =>
    match findSummon st e with
    | none => st
    | some su =>
      let td := takeDamageHp su.hp dmg
      setSummon st { su with hp := td.1 }

/-! ## Summon AI (`Summon.take_turn`, `Summon._smart_move_toward`) -/

def summonAltMoves (dx dy : Int) : List (Int × Int) :=
  if dx ≠ 0 ∧ dy ≠ 0 then
    [(dx, 0), (0, dy), (-dx, dy), (dx, -dy), (-dx, 0), (0, -dy), (-dx, -dy)]
  else if dx ≠ 0 then
    [(0, 1), (0, -1), (dx, 1), (dx, -1), (-dx, 0), (-dx, 1), (-dx, -1)]
  else if dy ≠ 0 then
    [(1, 0), (-1, 0), (1, dy), (-1, dy), (0, -dy), (1, -dy), (-1, -dy)]
  else [(1, 0), (0, 1), (-1, 0), (0, -1), (1, 1), (-1, -1), (1, -1), (-1, 1)]

def summonSmartMove (su : Summon) (tx ty : Int) (m : GameMapSt)
    (others : List EV) : Summon :=
  let dx := signTo su.x tx
  let dy := signTo su.y ty
  match moveXY su.x su.y dx dy m others with
  | some p => { su with x := p.1, y := p.2 }
  | none =>
    match tryMovesXY su.x su.y (summonAltMoves dx dy) m others with
    | some p => { su with x := p.1, y := p.2 }
    | none => su

/-- Closest living monster within sight range 8 (Manhattan); ties keep the
earlier list entry (`dist < min_dist` is strict). -/
def closestEnemy (su : Summon) (monsters : List Monster) :
    Option (Monster × Int) :=
  monsters.foldl
    (fun acc m =>
      if 0 < m.hp then
        let d := |su.x - m.x| + |su.y - m.y|
        match acc with
        | none => if d ≤ 8 then some (m, d) else none
        | some best => if d ≤ 8 ∧ d < best.2 then some (m, d) else acc
      else acc)
    none

/-- `Summon.take_turn`: returns the possibly-moved summon and, when an
enemy is adjacent (Chebyshev), that enemy's identity as a combat signal. -/
def summonTakeTurn (su : Summon) (p : PlayerSt) (m : GameMapSt)
    (otherSummons : List Summon) : Summon × Option Nat :=
  let playerDist := |su.x - p.x| + |su.y - p.y|
  let closest := closestEnemy su m.monsters
  let adjacent :=
    match closest with
    | some best =>
      let cdx := |su.x - best.1.x|
      let cdy := |su.y - best.1.y|
      if cdx ≤ 1 ∧ cdy ≤ 1 ∧ 0 < cdx + cdy then some best.1.eid else none
    | none => none
  match adjacent with
  | some eid => (su, some eid)
  | none =>
    let others := evP p :: (m.monsters.map evM ++ otherSummons.map evS)
    if playerDist > 6 then (summonSmartMove su p.x p.y m others, none)
    else
      match closest with
      | some best => (summonSmartMove su best.1.x best.1.y m others, none)
      | none =>
        if playerDist > 3 then (summonSmartMove su p.x p.y m others, none)
        else (su, none)

/-! ## Monster AI (`Monster.take_turn` and helpers) -/

/-- Candidate view used by `Monster._select_target` (live position, hp,
and the fields the type-specific biases read). -/
structure TgtView where
  ref : Tgt
  x : Int
  y : Int
  hp : Int
  maxHp : Int
  atkVal : Int
  isPlayer : Bool
  deriving Repr

def tgtViewOfPlayer (p : PlayerSt) : TgtView :=
  ⟨.player, p.x, p.y, p.hp, p.maxHp, getAttack p, true⟩

def tgtViewOfSummon (s : Summon) : TgtView :=
  ⟨.summonRef s.eid, s.x, s.y, s.hp, s.maxHp, s.atk, false⟩

/-- `random.uniform(a, b) = a + (b - a) * random()` with float rounding. -/
def uniformD (lo hi : Q) (r : RNG) : Q × RNG :=
  let rq := randQ r
  (addD lo (mulD (subD hi lo) rq.1), rq.2)

/-- `10 - (target.hp / target.max_hp * 10)` in float arithmetic. -/
def healthScoreQ (hp maxHp : Int) : Q :=
  subD (qI 10) (mulD (divD (qI hp) (qI maxHp)) (qI 10))

/-- One candidate's score in `Monster._select_target` (type-specific
bias plus the ±2 uniform jitter). -/
def targetScore (m : Monster) (t : TgtView) (rG : RNG) : Q × Int × RNG :=
  let distance := |m.x - t.x| + |m.y - t.y|
  let proximity : Int := max 0 (10 - distance)
  let health := healthScoreQ t.hp t.maxHp
  let base :=
    if m.monsterId = "spider" then
      let isolation : Int := if distance ≤ 3 then 5 else 0
      addD (addD (qI proximity) (mulD health ⟨3, 2⟩)) (qI isolation)
    else if m.monsterId = "orc" then
      addD (qI proximity) (mulD (divD (qI t.atkVal) (qI 10)) (qI 3))
    else if m.monsterId = "skeleton" then
      let pb : Int := if t.isPlayer then 8 else 0
      addD (addD (qI proximity) health) (qI pb)
    else addD (qI proximity) (mulD health d12)
  let u := uniformD (qI (-2)) (qI 2) rG
  (addD base u.1, distance, u.2)

def scoreCandidates (m : Monster) (cands : List TgtView) (rG : RNG) :
    List (Tgt × Q × Int) × RNG :=
  match cands with
  | [] => ([], rG)
  | t :: rest =>
    let sc := targetScore m t rG
    let tl := scoreCandidates m rest sc.2.2
    ((t.ref, sc.1, sc.2.1) :: tl.1, tl.2)

/-- `Monster._select_target`: score all candidates, keep those within 8
tiles, pick the maximum score (ties keep the earlier entry, as Python's
`max`). -/
def selectTarget (m : Monster) (cands : List TgtView) (rG : RNG) :
    Option Tgt × RNG :=
  let sc := scoreCandidates m cands rG
  let valid := sc.1.filter (fun c => c.2.2 ≤ 8)
  match valid with
  | [] => (none, sc.2)
  | c0 :: rest =>
    (some (rest.foldl (fun best c => if qLt best.2.1 c.2.1 then c else best)
      c0).1, sc.2)

def monsterAltMoves (m : Monster) (dx dy : Int) : List (Int × Int) :=
  if m.monsterId = "spider" then
    [(dy, dx), (-dy, -dx), (dx, 0), (0, dy), (-dx, 0), (0, -dy)]
  else if m.monsterId = "orc" then
    [(dx, 0), (0, dy), (dx, dy), (-dx, dy), (dx, -dy)]
  else [(dx, 0), (0, dy), (-dx, dy), (dx, -dy), (-dx, 0), (0, -dy)]

/-- `Monster._smart_move_toward_target` (the `rng` parameter of the source
is unused there). -/
def monsterSmartMove (m : Monster) (tx ty : Int) (gmap : GameMapSt)
    (others : List EV) : Monster :=
  let dx := signTo m.x tx
  let dy := signTo m.y ty
  match moveXY m.x m.y dx dy gmap others with
  | some p => { m with x := p.1, y := p.2 }
  | none =>
    match tryMovesXY m.x m.y (monsterAltMoves m dx dy) gmap others with
    | some p => { m with x := p.1, y := p.2 }
    | none => m

/-- `Monster._wander_intelligently`. -/
def monsterWander (m : Monster) (gmap : GameMapSt) (others : List EV)
    (rG : RNG) : Monster × RNG :=
  let rq := randQ rG
  let dir : (Int × Int) × RNG :=
    if qLt rq.1 d03 then
      ((signTo m.x (gmap.width / 2), signTo m.y (gmap.height / 2)), rq.2)
    else
      choice [((0 : Int), (1 : Int)), (0, -1), (1, 0), (-1, 0), (1, 1),
        (-1, -1), (1, -1), (-1, 1)] (0, 1) rq.2
  match moveXY m.x m.y dir.1.1 dir.1.2 gmap others with
  | some p => ({ m with x := p.1, y := p.2 }, dir.2)
  | none =>
    match tryMovesXY m.x m.y [(0, 1), (0, -1), (1, 0), (-1, 0)] gmap others with
    | some p => ({ m with x := p.1, y := p.2 }, dir.2)
    | none => (m, dir.2)

/-- `Monster.take_turn`: select a target among the player and living
summons; adjacent target (Manhattan distance 1) signals combat, a target
within sight causes pursuit, otherwise the monster wanders. -/
def monsterTakeTurn (m : Monster) (p : PlayerSt) (gmap : GameMapSt)
    (summons : List Summon) (rG : RNG) : Monster × Option Tgt × RNG :=
  let cands := tgtViewOfPlayer p ::
    (summons.filter (fun s => 0 < s.hp)).map tgtViewOfSummon
  let sel := selectTarget m cands rG
  let others := evP p ::
    ((gmap.monsters.filter (fun x => x.eid ≠ m.eid)).map evM ++
      summons.map evS)
  match sel.1 with
  | some t =>
    let pos :=
      match t with
      | .player => (p.x, p.y)
      | .summonRef e =>
        (match summons.find? (fun (s : Summon) => s.eid = e) with
          | some s => (s.x, s.y)
          | none => ((0 : Int), (0 : Int)))
      | .monsterRef _ => (0, 0)
    let dist := |m.x - pos.1| + |m.y - pos.2|
    if dist ≤ 8 then
      if dist = 1 then (m, some t, sel.2)
      else (monsterSmartMove m pos.1 pos.2 gmap others, none, sel.2)
    else
      let w := monsterWander m gmap others sel.2
      (w.1, none, w.2)
  | none =>
    let w := monsterWander m gmap others sel.2
    (w.1, none, w.2)

/-! ## Turn resolution (`Game.end_player_turn`) -/

/-- The summon half of `end_player_turn`: iterate over a snapshot of the
summon list; living summons act (combat when their turn signals an alive
target), dead ones are pruned. -/
def summonPhase : List Nat → GameState → GameState
  | [], st => st
  | eid :: rest, st =>
    match findSummon st eid with
    | none => summonPhase rest st
    | some su =>
      if 0 < su.hp then
        let tr := summonTakeTurn su st.player st.currentMap
          (st.summons.filter (fun s2 => s2.eid ≠ eid))
        let st1 := setSummon st tr.1
        let st2 :=
          match tr.2 with
          | some meid =>
            if tgtAlive st1 (.monsterRef meid) then
              doCombat st1 (.summonRef eid) (.monsterRef meid)
            else st1
          | none => st1
        summonPhase rest st2
      else summonPhase rest (removeSummon st eid)

/-- The fallback summon scan of the monster loop: the first living
cardinally-adjacent summon is attacked; if it dies it is removed. -/
def monsterFallbackSummons (meid : Nat) (mx my : Int) :
    List Nat → GameState → GameState
  | [], st => st
  | se :: rest, st =>
    match findSummon st se with
    | none => monsterFallbackSummons meid mx my rest st
    | some su =>
      if 0 < su.hp ∧
          ((|mx - su.x| = 1 ∧ |my - su.y| = 0) ∨
            (|mx - su.x| = 0 ∧ |my - su.y| = 1)) then
        let st2 := doCombat st (.monsterRef meid) (.summonRef se)
        if tgtAlive st2 (.summonRef se) then st2 else removeSummon st2 se
      else monsterFallbackSummons meid mx my rest st

/-- The fallback adjacency combat of the monster loop (runs when
`take_turn` returned no living target): attack the player if cardinally
adjacent (breaking the loop on game over), then the first adjacent
summon. -/
def monsterFallback (meid : Nat) (st : GameState) : GameState × Bool :=
  match findMonster st meid with
  | none => (st, false)
  | some m =>
    let stA :=
      if (|m.x - st.player.x| = 1 ∧ |m.y - st.player.y| = 0) ∨
          (|m.x - st.player.x| = 0 ∧ |m.y - st.player.y| = 1) then
        doCombat st (.monsterRef meid) .player
      else st
    if stA.gameOver then (stA, true)
    else (monsterFallbackSummons meid m.x m.y (stA.summons.map Summon.eid) stA,
      false)

/-- One monster's action in the monster half of `end_player_turn`;
the `Bool` result reports a `break` of the monster loop. -/
def monsterStep (eid : Nat) (st : GameState) : GameState × Bool :=
  match findMonster st eid with
  | none => (st, false)
  | some m =>
    if 0 < m.hp then
      let tr := monsterTakeTurn m st.player st.currentMap st.summons st.sG
      let st1 := { setMonster st tr.1 with sG := tr.2.2 }
      match tr.2.1 with
      | some t =>
        if tgtAlive st1 t then
          let st2 := doCombat st1 (.monsterRef eid) t
          if tgtAlive st2 t then (st2, false)
          else
            match t with
            | .player => (st2, st2.gameOver)
            | .summonRef se => (removeSummon st2 se, false)
            | .monsterRef _ => (st2, false)
        else monsterFallback eid st1
      | none => monsterFallback eid st1
    else (st, false)

def monsterPhase : List Nat → GameState → GameState
  | [], st => st
  | eid :: rest, st =>
    let r := monsterStep eid st
    if r.2 then r.1 else monsterPhase rest r.1

/-- `Game.end_player_turn`: buff decay, summon actions, monster actions,
turn counter increment.  The autosave at every 20th turn only writes a
file and does not change the session state. -/
def endPlayerTurn (st : GameState) : GameState :=
  let ub := updateBuffs st.player
  let st0 := { st with player := ub.1 }
  let st1 := summonPhase (st0.summons.map Summon.eid) st0
  let st2 := monsterPhase (st1.currentMap.monsters.map Monster.eid) st1
  { st2 with turnCount := st2.turnCount + 1 }

/-! ## Level transition (`Game.generate_new_level`) -/

/-- The adjacency order used by companion placement and level-transition
summon repositioning. -/
def dirOffsets8 : List (Int × Int) :=
  [(1, 0), (0, 1), (-1, 0), (0, -1), (1, 1), (-1, -1), (1, -1), (-1, 1)]

/-- Perimeter cells of the square ring of the given radius, in the
source's scan order (`dx` outer, `dy` inner, both from `-radius` to
`radius`). -/
def ringOffsets (r : Int) : List (Int × Int) :=
  (intRange (-r) (r + 1)).flatMap fun dx =>
    (intRange (-r) (r + 1)).filterMap fun dy =>
      if |dx| = r ∨ |dy| = r then some (dx, dy) else none

/-- Expanding-ring search: first radius whose perimeter contains a cell
satisfying the predicate, scanned in source order. -/
def findRingSpot :
    List Int → ((Int × Int) → Bool) → (Int × Int) → Option (Int × Int)
  | [], _, _ => none
  | r :: rest, pred, c =>
    match (ringOffsets r).find? (fun d => pred (c.1 + d.1, c.2 + d.2)) with
    | some d => some (c.1 + d.1, c.2 + d.2)
    | none => findRingSpot rest pred c

/-- Valid companion/summon tile: in bounds, floor, not the player's tile,
and free of monsters and of summons other than `exceptEid` (pass a fresh
id to exclude nobody). -/
def freeTileFor (st : GameState) (exceptEid : Nat) (pos : Int × Int) :
    Bool :=
  decide (0 ≤ pos.1 ∧ pos.1 < st.currentMap.width ∧ 0 ≤ pos.2 ∧
      pos.2 < st.currentMap.height) &&
    decide (tileAt st.currentMap.tiles pos.1 pos.2 = tileFloor) &&
    decide (pos ≠ (st.player.x, st.player.y)) &&
    !occupiedByMonster st.currentMap.monsters pos.1 pos.2 &&
    !st.summons.any (fun s =>
      decide (s.eid ≠ exceptEid ∧ s.x = pos.1 ∧ s.y = pos.2))

/-- The depth-1 companion block of `generate_new_level`: one
`global_rng.choice` draw for the cosmetic name, a `Summon` construction
(one module-`random` draw), then the 8-neighbour scan followed by rings of
radius 2–9; if no valid tile exists the companion is not created. -/
def placeCompanion (st : GameState) : GameState :=
  let mkc := mkSummon st.nextEid 0 0 1 1 st.sg
  let st1 := { st with
    sG := rngTail st.sG, sg := mkc.2, nextEid := st.nextEid + 1 }
  let px := st1.player.x
  let py := st1.player.y
  let pred := freeTileFor st1 st1.nextEid
  let spot :=
    match dirOffsets8.find? (fun d => pred (px + d.1, py + d.2)) with
    | some d => some (px + d.1, py + d.2)
    | none => findRingSpot [2, 3, 4, 5, 6, 7, 8, 9] pred (px, py)
  match spot with
  | some pos =>
    { st1 with summons := st1.summons ++ [{ mkc.1 with x := pos.1, y := pos.2 }] }
  | none => st1

/-- The per-summon block of `generate_new_level`: heal by 25% (at least
1), then reposition next to the player (8 neighbours, then rings of
radius 2–5); a summon with no valid tile, or a dead one, is removed. -/
def repositionSummons : List Nat → GameState → GameState
  | [], st => st
  | se :: rest, st =>
    match findSummon st se with
    | none => repositionSummons rest st
    | some su =>
      if 0 < su.hp then
        let su1 := { su with hp := min su.maxHp (su.hp + max (su.maxHp / 4) 1) }
        let st1 := setSummon st su1
        let px := st1.player.x
        let py := st1.player.y
        let pred := freeTileFor st1 se
        let spot :=
          match dirOffsets8.find? (fun d => pred (px + d.1, py + d.2)) with
          | some d => some (px + d.1, py + d.2)
          | none => findRingSpot [2, 3, 4, 5] pred (px, py)
        match spot with
        | some pos =>
          repositionSummons rest (setSummon st1 { su1 with x := pos.1, y := pos.2 })
        | none => repositionSummons rest (removeSummon st1 se)
      else repositionSummons rest (removeSummon st se)

/-- `Game.generate_new_level`: bump the depth, draw a level seed from
`global_rng`, regenerate the map, move the player to the new start, add
the depth-1 companion, heal the player by 25% (at least 1), and carry the
summons over.  Biome messages and the autosave write do not change the
session state. -/
def generateNewLevel (cfg : Config) (st : GameState) : GameState :=
  let depth := st.dungeonDepth + 1
  let ls := randint 0 1000000000 st.sG
  let gm := generateMap cfg mapWidth mapHeight ls.1 depth st.sg
  let pStart := gm.1.playerStartPos.getD (0, 0)
  let st1 := { st with
    currentMap := gm.1, dungeonDepth := depth, sG := ls.2, sg := gm.2,
    player := { st.player with
      x := pStart.1, y := pStart.2, depthReached := depth } }
  let st2 := if depth = 1 ∧ st1.summons.isEmpty then placeCompanion st1 else st1
  let heal := max (getMaxHp st2.player / 4) 1
  let st3 := { st2 with player := { st2.player with
    hp := min (getMaxHp st2.player) (st2.player.hp + heal) } }
  repositionSummons (st3.summons.map Summon.eid) st3

/-! ## Player action (`Game.handle_player_action`) -/

/-- A summon dragged through a portal: rings of radius 1–3 around the
destination; a summon with no valid tile simply stays behind. -/
def summonsFollowLoop : List Nat → (Int × Int) → GameState → GameState
  | [], _, st => st
  | se :: rest, dest, st =>
    match findSummon st se with
    | none => summonsFollowLoop rest dest st
    | some su =>
      if 0 < su.hp then
        let pred := fun (pos : Int × Int) =>
          decide (0 ≤ pos.1 ∧ pos.1 < st.currentMap.width ∧ 0 ≤ pos.2 ∧
              pos.2 < st.currentMap.height) &&
            decide (getTileM st.currentMap pos.1 pos.2 = tileFloor) &&
            decide (pos ≠ (st.player.x, st.player.y)) &&
            !occupiedByMonster st.currentMap.monsters pos.1 pos.2 &&
            !st.summons.any (fun s2 =>
              decide (s2.eid ≠ se ∧ s2.x = pos.1 ∧ s2.y = pos.2))
        match findRingSpot [1, 2, 3] pred dest with
        | some pos =>
          summonsFollowLoop rest dest (setSummon st { su with x := pos.1, y := pos.2 })
        | none => summonsFollowLoop rest dest st
      else summonsFollowLoop rest dest st

/-- The portal scan after a successful player move: the first portal pair
with an endpoint under the player teleports the player to the other
endpoint — with no occupancy check at the destination — then drags the
summons along and stops the scan. -/
def portalLoop : List (Int × Int × Int × Int) → GameState → GameState
  | [], st => st
  | (x1, y1, x2, y2) :: rest, st =>
    if st.player.x = x1 ∧ st.player.y = y1 then
      let st1 := { st with player := { st.player with x := x2, y := y2 } }
      summonsFollowLoop (st1.summons.map Summon.eid) (x2, y2) st1
    else if st.player.x = x2 ∧ st.player.y = y2 then
      let st1 := { st with player := { st.player with x := x1, y := y1 } }
      summonsFollowLoop (st1.summons.map Summon.eid) (x1, y1) st1
    else portalLoop rest st

/-- Item pickup on the player's tile (`add_item`; on failure the item
stays and only a message is shown). -/
def pickupCheck (st : GameState) : GameState :=
  match st.currentMap.items.find? (fun i =>
      decide (i.x = st.player.x ∧ i.y = st.player.y)) with
  | none => st
  | some it =>
    let ai := addItem st.player it
    if ai.1 then
      { st with
        player := ai.2,
        currentMap := { st.currentMap with
          items := st.currentMap.items.erase it } }
    else st

/-- `Game.handle_player_action(dx, dy)`: movement into a living monster is
combat; movement into a living summon is a guarded position swap;
otherwise a guarded move.  After a successful move: portal teleport, item
pickup, stairs descent (which skips `end_player_turn`).  In every other
case — including a blocked move — `end_player_turn` runs. -/
def handlePlayerAction (cfg : Config) (dx dy : Int) (st : GameState) :
    GameState :=
  let nx := st.player.x + dx
  let ny := st.player.y + dy
  match st.currentMap.monsters.find? (fun m =>
      decide (m.x = nx ∧ m.y = ny ∧ 0 < m.hp)) with
  | some target => endPlayerTurn (doCombat st .player (.monsterRef target.eid))
  | none =>
    let moved : Option GameState :=
      match st.summons.find? (fun s =>
          decide (s.x = nx ∧ s.y = ny ∧ 0 < s.hp)) with
      | some fs =>
        if (0 ≤ nx ∧ nx < st.currentMap.width ∧ 0 ≤ ny ∧
              ny < st.currentMap.height ∧
              tileAt st.currentMap.tiles nx ny ≠ tileWall) ∧
            occupiedByMonster st.currentMap.monsters nx ny = false ∧
            ¬st.summons.any (fun s2 =>
              decide (s2.eid ≠ fs.eid ∧ s2.x = st.player.x ∧
                s2.y = st.player.y)) then
          some (setSummon
            { st with player := { st.player with x := nx, y := ny } }
            { fs with x := st.player.x, y := st.player.y })
        else none
      | none =>
        match moveXY st.player.x st.player.y dx dy st.currentMap
            (st.currentMap.monsters.map evM ++ st.summons.map evS) with
        | some p =>
          some { st with player := { st.player with x := p.1, y := p.2 } }
        | none => none
    match moved with
    | none => endPlayerTurn st
    | some stM =>
      let stP := portalLoop stM.currentMap.portals stM
      let stI := pickupCheck stP
      if some (stI.player.x, stI.player.y) = stI.currentMap.stairsDownPos then
        generateNewLevel cfg stI
      else endPlayerTurn stI

/-! ## Item effects (`Item._use_*`, `Item.use`) -/

/-- `Item._use_health_potion`: rejected (no consumption) iff
`player.hp >= player.max_hp` (the stored base maximum); otherwise heal up
to the base maximum and consume one unit. -/
def useHealthPotionAt (p : PlayerSt) (idx : Nat) : PlayerSt × Bool :=
  match p.inventory.get? idx with
  | none => (p, false)
  | some it =>
    if p.hp ≥ p.maxHp then (p, false)
    else
      (removeItemAt
        { p with hp := min p.maxHp (p.hp + itemPowerOf it) } idx 1, true)

/-- `Item._use_defense_potion`: 15-step defense buff, always succeeds. -/
def useDefensePotionAt (p : PlayerSt) (idx : Nat) : PlayerSt × Bool :=
  match p.inventory.get? idx with
  | none => (p, false)
  | some it =>
    (removeItemAt
      { p with tempBuffs := buffSet p.tempBuffs "defense" (itemPowerOf it) 15 }
      idx 1, true)

/-- `Item._use_hp_boost_potion`: 15-step hp buff, then heal by the boost
amount up to the boosted maximum, always succeeds. -/
def useHpBoostPotionAt (p : PlayerSt) (idx : Nat) : PlayerSt × Bool :=
  match p.inventory.get? idx with
  | none => (p, false)
  | some it =>
    let p1 := { p with
      tempBuffs := buffSet p.tempBuffs "hp" (itemPowerOf it) 15 }
    let p2 := { p1 with hp := min (getMaxHp p1) (p1.hp + itemPowerOf it) }
    (removeItemAt p2 idx 1, true)

/-- `Item._equip_weapon`: the previously equipped weapon (if any) is
appended to the inventory, then the used slot is removed. -/
def equipWeaponAt (p : PlayerSt) (idx : Nat) : PlayerSt × Bool :=
  match p.inventory.get? idx with
  | none => (p, false)
  | some it =>
    let p1 :=
      match p.equippedWeapon with
      | some w => { p with inventory := p.inventory ++ [w] }
      | none => p
    (removeItemAt { p1 with equippedWeapon := some it } idx 1, true)

/-- `Item._equip_armor`. -/
def equipArmorAt (p : PlayerSt) (idx : Nat) : PlayerSt × Bool :=
  match p.inventory.get? idx with
  | none => (p, false)
  | some it =>
    let p1 :=
      match p.equippedArmor with
      | some a => { p with inventory := p.inventory ++ [a] }
      | none => p
    (removeItemAt { p1 with equippedArmor := some it } idx 1, true)

/-- `Item._use_summon`: scan the 8 neighbours of the player in source
order for a floor tile free of monsters and summons; on success create the
summon (one module-`random` draw for its name) and consume the scroll,
otherwise fail without consuming. -/
def scrollDirs : List (Int × Int) :=
  [(0, 1), (1, 0), (0, -1), (-1, 0), (1, 1), (-1, -1), (1, -1), (-1, 1)]

/-- The candidate condition of `Item._use_summon`: a floor tile (by
`get_tile`, so wall outside bounds) free of monsters and summons. -/
def freeSummonTile (st : GameState) (pos : Int × Int) : Bool :=
  decide (getTileM st.currentMap pos.1 pos.2 = tileFloor) &&
    !occupiedByMonster st.currentMap.monsters pos.1 pos.2 &&
    !st.summons.any (fun s => decide (s.x = pos.1 ∧ s.y = pos.2))

def useSummonScrollAt (st : GameState) (idx : Nat) : GameState × Bool :=
  match st.player.inventory.get? idx with
  | none => (st, false)
  | some it =>
    match scrollDirs.find? (fun d =>
        freeSummonTile st (st.player.x + d.1, st.player.y + d.2)) with
    | some d =>
      let mk := mkSummon st.nextEid (st.player.x + d.1) (st.player.y + d.2)
        it.level st.dungeonDepth st.sg
      ({ st with
        summons := st.summons ++ [mk.1], sg := mk.2,
        nextEid := st.nextEid + 1,
        player := removeItemAt st.player idx 1 }, true)
    | none => (st, false)

/-- `Item.use` dispatch over the effect installed by `Item.__init__`
(`False` without state change when the effect is `None`). -/
def itemUse (st : GameState) (idx : Nat) : GameState × Bool :=
  match st.player.inventory.get? idx with
  | none => (st, false)
  | some it =>
    if it.itemId = "health_potion" then
      let r := useHealthPotionAt st.player idx
      ({ st with player := r.1 }, r.2)
    else if it.itemId = "defense_potion" then
      let r := useDefensePotionAt st.player idx
      ({ st with player := r.1 }, r.2)
    else if it.itemId = "hp_boost_potion" then
      let r := useHpBoostPotionAt st.player idx
      ({ st with player := r.1 }, r.2)
    else if it.itemId = "summon" then useSummonScrollAt st idx
    else if it.itemId = "sword" then
      let r := equipWeaponAt st.player idx
      ({ st with player := r.1 }, r.2)
    else if it.itemId = "shield" then
      let r := equipArmorAt st.player idx
      ({ st with player := r.1 }, r.2)
    else (st, false)

/-! ## Persistence (`Game.save_game_state` / `Game.load_game_state`)

The checkpoint is JSON (gzip is container-level and carried faithfully by
`Persistence`).  `J` models the JSON values; Python tuples serialize as
JSON arrays, so the `global_rng.getstate()` tuple and the buff tuples
appear as `J.arr` — which is exactly what `load_game_state`'s
`isinstance(rng_state, list)` conversion handles.  Render metadata
(char/color/name) saved by `Entity.to_dict` is omitted like everywhere in
this model; `from_dict` restores whatever keys are present.  Parsers
return `none` where Python would raise (a raised error aborts the load). -/

inductive J where
  | num (n : Int)
  | str (s : String)
  | arr (l : List J)
  | obj (l : List (String × J))
  | jnull
  deriving Repr

def jLook (l : List (String × J)) (k : String) : Option J :=
  (l.find? (fun e => e.1 = k)).map (fun e => e.2)

def jNum? (o : Option J) : Option Int :=
  match o with
  | some (.num n) => some n
  | _ => none

def jStr? (o : Option J) : Option String :=
  match o with
  | some (.str s) => some s
  | _ => none

def itemToJ (i : Item) : J :=
  .obj [("x", .num i.x), ("y", .num i.y), ("item_id", .str i.itemId),
    ("qty", .num i.qty), ("level", .num i.level)]

/-- `Item.from_dict` (`level` defaults to 1 when absent). -/
def itemFromJ (j : J) : Option Item :=
  match j with
  | .obj l =>
    match jNum? (jLook l "x"), jNum? (jLook l "y"),
        jStr? (jLook l "item_id"), jNum? (jLook l "qty") with
    | some x, some y, some itemId, some qty =>
      let level := match jNum? (jLook l "level") with
        | some lv => lv
        | none => 1
      some ⟨x, y, itemId, qty, level⟩
    | _, _, _, _ => none
  | _ => none

def buffsToJ (bs : List (String × Int × Int)) : J :=
  .obj (bs.map fun b => (b.1, J.arr [.num b.2.1, .num b.2.2]))

def buffsFromJ (j : J) : Option (List (String × Int × Int)) :=
  match j with
  | .obj l => l.mapM fun e =>
      match e.2 with
      | .arr [.num a, .num s] => some (e.1, a, s)
      | _ => none
  | _ => none

def playerToJ (p : PlayerSt) : J :=
  .obj [("x", .num p.x), ("y", .num p.y), ("hp", .num p.hp),
    ("max_hp", .num p.maxHp), ("atk", .num p.atk),
    ("def_val", .num p.defVal),
    ("inventory", .arr (p.inventory.map itemToJ)),
    ("depth_reached", .num p.depthReached),
    ("monsters_killed", .num p.monstersKilled),
    ("items_collected", .num p.itemsCollected),
    ("equipped_weapon",
      match p.equippedWeapon with | some w => itemToJ w | none => .jnull),
    ("equipped_armor",
      match p.equippedArmor with | some a => itemToJ a | none => .jnull),
    ("temp_buffs", buffsToJ p.tempBuffs)]

/-- `if data.get("equipped_weapon"): ... Item.from_dict(...)`: a missing
or null entry means no equipment. -/
def equippedFromJ (o : Option J) : Option (Option Item) :=
  match o with
  | some (.obj l) => (itemFromJ (.obj l)).map some
  | _ => some none

/-- `Player.from_dict`. -/
def playerFromJ (j : J) : Option PlayerSt :=
  match j with
  | .obj l =>
    match jNum? (jLook l "x"), jNum? (jLook l "y"), jNum? (jLook l "hp"),
        jNum? (jLook l "max_hp"), jNum? (jLook l "atk"),
        jNum? (jLook l "def_val") with
    | some x, some y, some hp, some maxHp, some atk, some defVal =>
      match jLook l "inventory" with
      | some (.arr invJ) =>
        match invJ.mapM itemFromJ, jNum? (jLook l "depth_reached"),
            jNum? (jLook l "monsters_killed"),
            jNum? (jLook l "items_collected") with
        | some inv, some dr, some mk, some ic =>
          match equippedFromJ (jLook l "equipped_weapon"),
              equippedFromJ (jLook l "equipped_armor") with
          | some ew, some ea =>
            match jLook l "temp_buffs" with
            | some bj =>
              match buffsFromJ bj with
              | some bs =>
                some { x := x, y := y, hp := hp, maxHp := maxHp,
                       atk := atk, defVal := defVal, inventory := inv,
                       depthReached := dr, monstersKilled := mk,
                       itemsCollected := ic, equippedWeapon := ew,
                       equippedArmor := ea, tempBuffs := bs }
              | none => none
            | none => none
          | _, _ => none
        | _, _, _, _ => none
      | _ => none
    | _, _, _, _, _, _ => none
  | _ => none

def monsterToJ (m : Monster) : J :=
  .obj [("x", .num m.x), ("y", .num m.y), ("hp", .num m.hp),
    ("max_hp", .num m.maxHp), ("atk", .num m.atk),
    ("def_val", .num m.defVal), ("monster_id", .str m.monsterId),
    ("level", .num m.level)]

/-- `Monster.from_dict`: `Monster(x, y, monster_id, 1)` — its constructor
consumes one module-`random` jitter draw — then every saved field
overwrites the constructed one. -/
def monsterFromJ (eid : Nat) (j : J) (g : RNG) : Option Monster × RNG :=
  match j with
  | .obj l =>
    match jNum? (jLook l "x"), jNum? (jLook l "y"), jNum? (jLook l "hp"),
        jNum? (jLook l "max_hp"), jNum? (jLook l "atk"),
        jNum? (jLook l "def_val"), jStr? (jLook l "monster_id"),
        jNum? (jLook l "level") with
    | some x, some y, some hp, some maxHp, some atk, some defVal,
        some monsterId, some level =>
      let mk := mkMonster eid x y monsterId 1 g
      (some { mk.1 with
        level := level, hp := hp, maxHp := maxHp, atk := atk,
        defVal := defVal }, mk.2)
    | _, _, _, _, _, _, _, _ => (none, g)
  | _ => (none, g)

def monstersFromJ : List J → Nat → RNG → Option (List Monster) × RNG
  | [], _, g => (some [], g)
  | j :: rest, eid, g =>
    let r := monsterFromJ eid j g
    match r.1 with
    | none => (none, r.2)
    | some m =>
      let tl := monstersFromJ rest (eid + 1) r.2
      match tl.1 with
      | none => (none, tl.2)
      | some ms => (some (m :: ms), tl.2)

def summonToJ (s : Summon) : J :=
  .obj [("x", .num s.x), ("y", .num s.y), ("hp", .num s.hp),
    ("max_hp", .num s.maxHp), ("atk", .num s.atk),
    ("def_val", .num s.defVal), ("level", .num s.level),
    ("player_level", .num s.playerLevel)]

/-- `Summon.from_dict`: the constructor consumes one module-`random` name
draw, then the saved fields overwrite. -/
def summonFromJ (eid : Nat) (j : J) (g : RNG) : Option Summon × RNG :=
  match j with
  | .obj l =>
    match jNum? (jLook l "x"), jNum? (jLook l "y"), jNum? (jLook l "hp"),
        jNum? (jLook l "max_hp"), jNum? (jLook l "atk"),
        jNum? (jLook l "def_val"), jNum? (jLook l "level"),
        jNum? (jLook l "player_level") with
    | some x, some y, some hp, some maxHp, some atk, some defVal,
        some level, some playerLevel =>
      let mk := mkSummon eid x y level playerLevel g
      (some { mk.1 with
        hp := hp, maxHp := maxHp, atk := atk, defVal := defVal }, mk.2)
    | _, _, _, _, _, _, _, _ => (none, g)
  | _ => (none, g)

def summonsFromJ : List J → Nat → RNG → Option (List Summon) × RNG
  | [], _, g => (some [], g)
  | j :: rest, eid, g =>
    let r := summonFromJ eid j g
    match r.1 with
    | none => (none, r.2)
    | some s =>
      let tl := summonsFromJ rest (eid + 1) r.2
      match tl.1 with
      | none => (none, tl.2)
      | some ss => (some (s :: ss), tl.2)

def portalToJ (p : Int × Int × Int × Int) : J :=
  .arr [.num p.1, .num p.2.1, .num p.2.2.1, .num p.2.2.2]

def portalFromJ (j : J) : Option (Int × Int × Int × Int) :=
  match j with
  | .arr [.num a, .num b, .num c, .num d] => some (a, b, c, d)
  | _ => none

def mapToJ (m : GameMapSt) : J :=
  .obj [("seed", .num m.seed),
    ("monsters", .arr (m.monsters.map monsterToJ)),
    ("items", .arr (m.items.map itemToJ)),
    ("portals", .arr (m.portals.map portalToJ))]

/-- `GameMap.from_dict`: rebuild a 60×40 map from the stored seed with
`generate_map(1)` (regenerating terrain and consuming generation draws),
then overwrite the monster/item/portal lists with the stored ones and
restore the portal tiles. -/
def mapFromJ (cfg : Config) (j : J) (g : RNG) : Option GameMapSt × RNG :=
  match j with
  | .obj l =>
    match jNum? (jLook l "seed") with
    | none => (none, g)
    | some seed =>
      let gen := generateMap cfg mapWidth mapHeight seed 1 g
      match jLook l "monsters", jLook l "items" with
      | some (.arr mj), some (.arr ij) =>
        let ms := monstersFromJ mj 0 gen.2
        match ms.1 with
        | none => (none, ms.2)
        | some monsters =>
          match ij.mapM itemFromJ with
          | none => (none, ms.2)
          | some items =>
            let portals :=
              match jLook l "portals" with
              | some (.arr pj) => pj.mapM portalFromJ
              | _ => some []
            match portals with
            | none => (none, ms.2)
            | some ps =>
              let tiles := ps.foldl
                (fun t p =>
                  setTile (setTile t p.1 p.2.1 tilePortal) p.2.2.1 p.2.2.2
                    tilePortal)
                gen.1.tiles
              (some { gen.1 with
                monsters := monsters, items := items, portals := ps,
                tiles := tiles }, ms.2)
      | _, _ => (none, gen.2)
  | _ => (none, g)

/-- `Game.save_game_state`: the logical snapshot handed to
`Persistence.save_game`.  `global_rng.getstate()` is the stream of future
draws in this model; like the Python state tuple it serializes as a JSON
array. -/
def saveGameState (st : GameState) : J :=
  .obj [("player", playerToJ st.player),
    ("dungeon_depth", .num st.dungeonDepth),
    ("turn_count", .num st.turnCount),
    ("global_seed", .arr (st.sG.map fun n => J.num n)),
    ("map", mapToJ st.currentMap),
    ("summons", .arr (st.summons.map summonToJ))]

def rngFromJ : List J → Option RNG
  | [] => some []
  | .num n :: rest => (rngFromJ rest).map (fun r => n.toNat :: r)
  | _ => none

/-- `Game.load_game_state` applied to session `st0` (which supplies the
untouched `global_rng` when the snapshot's rng entry is not a list, the
module-`random` stream the restore draws from, and fresh identities). -/
def loadGameState (cfg : Config) (st0 : GameState) (j : J) :
    Option GameState :=
  match j with
  | .obj l =>
    match playerFromJ ((jLook l "player").getD .jnull) with
    | none => none
    | some player =>
      match jNum? (jLook l "dungeon_depth"), jNum? (jLook l "turn_count") with
      | some depth, some turn =>
        let sG :=
          match jLook l "global_seed" with
          | some (.arr ns) => rngFromJ ns
          | _ => some st0.sG
        match sG with
        | none => none
        | some sG2 =>
          let mp := mapFromJ cfg ((jLook l "map").getD .jnull) st0.sg
          match mp.1 with
          | none => none
          | some gameMap =>
            let sums :=
              match jLook l "summons" with
              | some (.arr sj) => summonsFromJ sj st0.nextEid mp.2
              | _ => (some [], mp.2)
            match sums.1 with
            | none => none
            | some summons =>
              some { player := player, currentMap := gameMap,
                     dungeonDepth := depth, turnCount := turn,
                     summons := summons, gameOver := st0.gameOver,
                     sG := sG2, sg := sums.2,
                     nextEid := st0.nextEid + summons.length }
      | _, _ => none
  | _ => none

/-! ## Definitions used by the claim statements -/

/-- The seed-determined part of a monster (position and type); its level
and the stats derived from the level come from the module-level
`random`. -/
def stripMon (m : Monster) : Int × Int × String := (m.x, m.y, m.monsterId)

/-- The penetration formula as the spec words it, in exact real
arithmetic: `floor(defense * max(0.3, 1.0 - 0.1*(level-1)))`.  Written
from the spec for comparison against the source's float computation
`effectiveDefenseF`. -/
def specEffectiveDefense (defense level : Int) : Int :=
  qFloor (qMul (qI defense) (maxD ⟨3, 10⟩ (qSub (qI 1) (qMul (qI (level - 1)) ⟨1, 10⟩))))

/-- `n` successive buff-decay steps. -/
def decayN : Nat → PlayerSt → PlayerSt
  | 0, p => p
  | n + 1, p => decayN n (updateBuffs p).1

/-- "One unit of the used slot was consumed": the slot's quantity dropped
by one (stackable with quantity > 1) or the slot was removed. -/
def removedOneUnit (inv inv' : List Item) (idx : Nat) : Prop :=
  match inv.get? idx with
  | some it =>
    if itemStackable it.itemId ∧ 0 < it.qty - 1 then
      inv' = inv.set idx { it with qty := it.qty - 1 }
    else inv' = inv.eraseIdx idx
  | none => False

/-- A configuration whose seeded generators are irrelevant (the code paths
exercised never regenerate a level). -/
def cfg0 : Config := ⟨fun _ => []⟩

/-- The seeded-generator draw sequence for the 16×12 demonstration level:
one vertical BSP split at 6 (two 6×8 leaves), a 3×4 room in each, a
corridor along row 3, player start (3,3), stairs (9,3), three goblins,
two potions, no summon scroll, and (with only 2 rooms) no portals. -/
def sDemo : RNG :=
  [2, 0, 0, 0, 0, 0, 0, 0, 0, 0, 0, 0, 0, 0, 0, 0, 0, 0, 0, 0, 1, 1, 0,
    0, 2, 2, 0, 0, 0, 2, 0, 0, 1, 1, 1, 1, 0, 1, 2, 2, 1, 0, 801]

def cfgDemo : Config := ⟨fun _ => sDemo⟩

/-- The demonstration level generated from `sDemo` (module-`random`
stream `g` supplies the three monster-level jitters). -/
def demoMap (g : RNG) : GameMapSt := (generateMap cfgDemo 16 12 0 1 g).1

/-- A 9×5 level with a portal pair (2,1)–(6,3): the player stands at
(1,1) next to the entrance and a goblin stands on the exit tile (a
position monsters reach by ordinary movement, since portal tiles are not
walls). -/
def mapC2 : GameMapSt :=
  { width := 9, height := 5, seed := 0,
    tiles := ["#########".toList, "#.O.....#".toList, "#.......#".toList,
      "#.....O.#".toList, "#########".toList],
    monsters := [{ eid := 0, x := 6, y := 3, monsterId := "goblin",
                   level := 1, hp := 5, maxHp := 5, atk := 2,
                   defVal := 0 }],
    items := [], stairsDownPos := some (7, 1),
    playerStartPos := some (1, 1), portals := [(2, 1, 6, 3)] }

def stC2 : GameState :=
  { player := mkPlayer 1 1, currentMap := mapC2, dungeonDepth := 1,
    turnCount := 0, summons := [], gameOver := false, sG := [0], sg := [],
    nextEid := 0 }

/-- A 5×5 level where the tile east of the player (1,1) is a wall and a
goblin waits at (3,3). -/
def mapC5 : GameMapSt :=
  { width := 5, height := 5, seed := 0,
    tiles := ["#####".toList, "#.#.#".toList, "#...#".toList,
      "#...#".toList, "#####".toList],
    monsters := [{ eid := 0, x := 3, y := 3, monsterId := "goblin",
                   level := 1, hp := 5, maxHp := 5, atk := 2,
                   defVal := 0 }],
    items := [], stairsDownPos := some (3, 1),
    playerStartPos := some (1, 1), portals := [] }

def stC5 : GameState :=
  { player := mkPlayer 1 1, currentMap := mapC5, dungeonDepth := 1,
    turnCount := 0, summons := [], gameOver := false, sG := [0], sg := [],
    nextEid := 0 }

/-- A minimal state for combat evaluation: a level-7 monster (attack 10)
and a player with total defense 10 (base 1, shield 1, defense buff 8). -/
def stC6 : GameState :=
  { player := { mkPlayer 1 1 with
      equippedArmor := some ⟨0, 0, "shield", 1, 1⟩,
      tempBuffs := [("defense", 8, 10)] },
    currentMap := { width := 5, height := 5, seed := 0,
                    tiles := ["#####".toList, "#...#".toList,
                      "#...#".toList, "#...#".toList, "#####".toList],
                    monsters := [{ eid := 0, x := 2, y := 1,
                                   monsterId := "orc", level := 7,
                                   hp := 22, maxHp := 22, atk := 10,
                                   defVal := 4 }],
                    items := [], stairsDownPos := some (3, 3),
                    playerStartPos := some (1, 1), portals := [] },
    dungeonDepth := 7, turnCount := 0, summons := [], gameOver := false,
    sG := [], sg := [], nextEid := 0 }

/-- Like `stC6` but with a level-5 monster against the same defense-10
player (the spec's worked example). -/
def stC6w : GameState :=
  { stC6 with
    currentMap := { stC6.currentMap with
      monsters := [{ eid := 0, x := 2, y := 1, monsterId := "orc",
                     level := 5, hp := 18, maxHp := 18, atk := 10,
                     defVal := 3 }] } }

/-- A fresh player holding one level-1 vitality potion. -/
def pC7 : PlayerSt :=
  { mkPlayer 1 1 with inventory := [⟨0, 0, "hp_boost_potion", 1, 1⟩] }

/-- A small state for item-use evaluation: the player stands at (1,1)
with free floor around, holding a health potion (hp reduced to 20),
and a summon scroll. -/
def stC8 : GameState :=
  { player := { mkPlayer 1 1 with
      hp := 20,
      inventory := [⟨0, 0, "health_potion", 2, 1⟩, ⟨0, 0, "summon", 1, 1⟩] },
    currentMap := { width := 5, height := 5, seed := 0,
                    tiles := ["#####".toList, "#...#".toList,
                      "#...#".toList, "#...#".toList, "#####".toList],
                    monsters := [], items := [],
                    stairsDownPos := some (3, 3),
                    playerStartPos := some (1, 1), portals := [] },
    dungeonDepth := 1, turnCount := 0, summons := [], gameOver := false,
    sG := [], sg := [], nextEid := 0 }

/-- Ten distinct non-stackable slots (a full inventory). -/
def pC9 : PlayerSt :=
  { mkPlayer 1 1 with inventory :=
      (List.range 10).map fun i => ⟨(i : Int), 0, "sword", 1, 1⟩ }

/-- A player holding a stack of two level-1 health potions. -/
def pC10 : PlayerSt :=
  { mkPlayer 1 1 with inventory := [⟨0, 0, "health_potion", 2, 1⟩] }

/-! # Theorems -/

/-- Claim C1: every generated level must have a Floor/Portal path from the
player start to the stairs, and generation itself must validate this by
BFS before accepting the level.  The source defines the BFS validator
`_can_reach_stairs` but `generate_map` never invokes it (dead code), so no
generated level is ever validated — the acceptance gate is missing.  This
theorem evaluates the embedded generator at a concrete input on which the
bug manifests: the level is produced and accepted with no reachability
check having run; invoking the dead validator on the result after the fact
shows the path does exist on this instance. -/
theorem c1_generation_never_validates_reachability :
    (demoMap [0, 0, 0]).playerStartPos = some (3, 3) ∧
    (demoMap [0, 0, 0]).stairsDownPos = some (9, 3) ∧
    canReachStairs (demoMap [0, 0, 0]) = true := by decide

/-- Claim C2: after any sequence of ticks from a freshly generated level,
no two living entities share a tile.  This fails: the portal teleport in
`handle_player_action` moves the player to the far portal endpoint with no
occupancy check.  In `stC2` a living goblin stands on the portal exit
(6,3) — a tile monsters reach by ordinary movement since portal tiles are
not walls — and the player steps onto the entrance (2,1).  After this one
complete tick the living player and the living goblin both occupy (6,3),
and the overlap survives the monster's own action (it cannot move off the
shared tile: every escape vector is the zero vector, blocked by the
player). -/
theorem c2_portal_teleport_creates_overlap :
    (handlePlayerAction cfg0 1 0 stC2).player.x = 6 ∧
    (handlePlayerAction cfg0 1 0 stC2).player.y = 3 ∧
    (handlePlayerAction cfg0 1 0 stC2).player.hp = 30 ∧
    (handlePlayerAction cfg0 1 0 stC2).currentMap.monsters.map
      (fun m => (m.x, m.y, m.hp)) = [(6, 3, 5)] ∧
    (handlePlayerAction cfg0 1 0 stC2).turnCount = 1 := by decide

/-- Claim C5: a blocked player move leaves the turn counter unchanged and
does not let summons or monsters act.  This fails: `handle_player_action`
calls `end_player_turn` unconditionally (except on stairs descent).  In
`stC5` the player at (1,1) bumps into the wall at (2,1): the player does
not move, yet the goblin at (3,3) acts (stepping to (2,2) toward the
player) and the turn counter advances from 0 to 1. -/
theorem c5_blocked_move_still_ends_turn :
    (handlePlayerAction cfg0 1 0 stC5).player.x = 1 ∧
    (handlePlayerAction cfg0 1 0 stC5).player.y = 1 ∧
    (handlePlayerAction cfg0 1 0 stC5).turnCount = 1 ∧
    (handlePlayerAction cfg0 1 0 stC5).currentMap.monsters.map
      (fun m => (m.x, m.y)) = [(2, 2)] := by decide

/-- Claim C6, counterexample: the claim states the damage equals
`max(1, attack - floor(defense * max(0.3, 1.0 - 0.1*(level-1))))` in exact
arithmetic.  At monster level 7, attack 10, player defense 10 the exact
formula gives effective defense `floor(10 * 0.4) = 4` and damage 6, but
the code computes `1.0 - 6*0.1 = 0.3999999999999999` in binary64 floats,
truncating to effective defense 3 and dealing damage 7: the player's hp
drops from 30 to 23, not 24. -/
theorem c6_penetration_exact_formula_counterexample :
    getDefense stC6.player = 10 ∧
    (doCombat stC6 (.monsterRef 0) .player).player.hp = 23 ∧
    specEffectiveDefense 10 7 = 4 ∧
    effectiveDefenseF 10 7 = 3 ∧
    stC6.player.hp - max 1 (10 - specEffectiveDefense 10 7) = 24 := by
  decide

/-- Claim C7, counterexample: hp is claimed to stay within
`[0, max_hp + active hp-buff]` under every operation including buff decay.
Reachable trace: a fresh player (30/30) drinks a level-1 vitality potion
(hp buff +15 for 15 steps, hp healed to 45).  After 14 decay steps the
invariant still holds (45 ≤ 45), but the 15th decay removes the buff
without re-clamping: hp stays 45 while the bound drops to 30. -/
theorem c7_hp_exceeds_max_after_buff_expiry :
    0 ≤ (decayN 14 (useHpBoostPotionAt pC7 0).1).hp ∧
    (decayN 14 (useHpBoostPotionAt pC7 0).1).hp ≤
      getMaxHp (decayN 14 (useHpBoostPotionAt pC7 0).1) ∧
    (decayN 15 (useHpBoostPotionAt pC7 0).1).hp = 45 ∧
    getMaxHp (decayN 15 (useHpBoostPotionAt pC7 0).1) = 30 ∧
    ¬(decayN 15 (useHpBoostPotionAt pC7 0).1).hp ≤
      getMaxHp (decayN 15 (useHpBoostPotionAt pC7 0).1) := by decide

/-- Claim C4, counterexample: the claim states that two runs of map
generation with the same seed and depth yield identical monster lists
including levels.  Both runs below use the same configuration, seed 0 and
depth 1 (hence the same seeded draw stream `sDemo`), and produce identical
terrain — but `Monster.__init__` draws its level jitter from the
module-level `random`, whose state differs between two in-process runs, so
the monster levels (and the hp/attack/defense scaled from them) differ. -/
theorem c4_generation_not_deterministic_counterexample :
    (demoMap [0, 0, 0]).monsters.map Monster.level = [1, 1, 1] ∧
    (demoMap [2, 2, 2]).monsters.map Monster.level = [2, 2, 2] ∧
    (demoMap [0, 0, 0]).tiles = (demoMap [2, 2, 2]).tiles ∧
    demoMap [0, 0, 0] ≠ demoMap [2, 2, 2] := by decide


theorem removeItemAt_one_t (p : PlayerSt) (idx : Nat) (it : Item)
    (hg : p.inventory.get? idx = some it) :
    removedOneUnit p.inventory (removeItemAt p idx 1).inventory idx := by
  unfold removedOneUnit removeItemAt
  rw [hg]
  dsimp only
  by_cases hs : itemStackable it.itemId = true
  · by_cases hq : (0 : Int) < it.qty - 1
    · rw [if_pos ⟨hs, hq⟩, if_pos hs, if_neg (by omega : ¬it.qty - 1 ≤ 0)]
    · rw [if_neg (fun hc => hq hc.2), if_pos hs,
        if_pos (by omega : it.qty - 1 ≤ 0)]
  · rw [if_neg (fun hc => hs hc.1), if_neg hs]

theorem useHealth_spec_t (p : PlayerSt) (idx : Nat) (it : Item)
    (hg : p.inventory.get? idx = some it) :
    ((useHealthPotionAt p idx).2 = true ↔ p.hp < p.maxHp) ∧
    ((useHealthPotionAt p idx).2 = false → (useHealthPotionAt p idx).1 = p) ∧
    ((useHealthPotionAt p idx).2 = true →
      removedOneUnit p.inventory (useHealthPotionAt p idx).1.inventory idx) := by
  unfold useHealthPotionAt
  rw [hg]
  split_ifs with hful
  · refine ⟨⟨fun hc => by simp at hc, fun hc => absurd hc (by omega)⟩,
      fun _ => rfl, fun hc => by simp at hc⟩
  · refine ⟨⟨fun _ => by omega, fun _ => rfl⟩, fun hc => by simp at hc, ?_⟩
    intro _
    exact removeItemAt_one_t
      { p with hp := min p.maxHp (p.hp + itemPowerOf it) } idx it hg

theorem useScroll_spec_t (st : GameState) (idx : Nat) (it : Item)
    (hg : st.player.inventory.get? idx = some it) :
    ((useSummonScrollAt st idx).2 = true ↔ ∃ d ∈ scrollDirs,
      freeSummonTile st (st.player.x + d.1, st.player.y + d.2) = true) ∧
    ((useSummonScrollAt st idx).2 = false → (useSummonScrollAt st idx).1 = st) ∧
    ((useSummonScrollAt st idx).2 = true →
      removedOneUnit st.player.inventory
        (useSummonScrollAt st idx).1.player.inventory idx ∧
      (useSummonScrollAt st idx).1.summons.length = st.summons.length + 1) := by
  unfold useSummonScrollAt
  rw [hg]
  cases hf : scrollDirs.find? (fun d =>
      freeSummonTile st (st.player.x + d.1, st.player.y + d.2)) with
  | none =>
    refine ⟨⟨fun hc => by simp at hc, fun hc => ?_⟩, fun _ => rfl,
      fun hc => by simp at hc⟩
    obtain ⟨d, hd, hfree⟩ := hc
    have := List.find?_eq_none.1 hf d hd
    exact absurd hfree (by simpa using this)
  | some d =>
    refine ⟨⟨fun _ => ?_, fun _ => rfl⟩, fun hc => by simp at hc, fun _ => ⟨?_, ?_⟩⟩
    · have hps := List.find?_some hf
      exact ⟨d, List.mem_of_find?_eq_some hf, by simpa using hps⟩
    · exact removeItemAt_one_t st.player idx it hg
    · simp

/-- Claim C8: every item use either mutates the player and consumes one
unit of the item, or fails and leaves the state unchanged; a health potion
fails exactly when the player is at full hp, and a summon scroll fails
exactly when no free adjacent tile exists.  The theorem dispatches on the
used slot's item id: a failed use returns the state unchanged; the health
potion succeeds iff `hp < max_hp` and then consumes one unit; the summon
scroll succeeds iff one of the eight neighbouring tiles is free and then
consumes one unit and adds one summon; defense and vitality potions
always succeed and consume one unit; equipping a sword or shield always
succeeds and consumes one unit from the inventory as extended by the
previously equipped piece (the source appends the old equipment before
removing the used slot); an id with no effect fails and changes
nothing. -/
theorem c8_item_use_semantics (st : GameState) (idx : Nat) (it : Item)
    (hg : st.player.inventory.get? idx = some it) :
    ((itemUse st idx).2 = false → (itemUse st idx).1 = st) ∧
    (it.itemId = "health_potion" →
      ((itemUse st idx).2 = true ↔ st.player.hp < st.player.maxHp) ∧
      ((itemUse st idx).2 = true → removedOneUnit st.player.inventory
        (itemUse st idx).1.player.inventory idx)) ∧
    (it.itemId = "summon" →
      ((itemUse st idx).2 = true ↔ ∃ d ∈ scrollDirs,
        freeSummonTile st (st.player.x + d.1, st.player.y + d.2) = true) ∧
      ((itemUse st idx).2 = true → removedOneUnit st.player.inventory
          (itemUse st idx).1.player.inventory idx ∧
        (itemUse st idx).1.summons.length = st.summons.length + 1)) ∧
    ((it.itemId = "defense_potion" ∨ it.itemId = "hp_boost_potion") →
      (itemUse st idx).2 = true ∧ removedOneUnit st.player.inventory
        (itemUse st idx).1.player.inventory idx) ∧
    (it.itemId = "sword" →
      (itemUse st idx).2 = true ∧
      (match st.player.equippedWeapon with
        | none => removedOneUnit st.player.inventory
            (itemUse st idx).1.player.inventory idx
        | some w => removedOneUnit (st.player.inventory ++ [w])
            (itemUse st idx).1.player.inventory idx)) ∧
    (it.itemId = "shield" →
      (itemUse st idx).2 = true ∧
      (match st.player.equippedArmor with
        | none => removedOneUnit st.player.inventory
            (itemUse st idx).1.player.inventory idx
        | some a => removedOneUnit (st.player.inventory ++ [a])
            (itemUse st idx).1.player.inventory idx)) ∧
    (itemHasEffect it.itemId = false →
      (itemUse st idx).2 = false ∧ (itemUse st idx).1 = st) := by
  have hidx : idx < st.player.inventory.length := (List.get?_eq_some.1 hg).1
  unfold itemUse
  rw [hg]
  dsimp only
  by_cases h1 : it.itemId = "health_potion"
  · obtain ⟨hiff, hfail, hcons⟩ := useHealth_spec_t st.player idx it hg
    rw [if_pos h1]
    refine ⟨fun hf2 => by rw [hfail hf2], fun _ => ⟨hiff, hcons⟩,
      fun hc => absurd (h1 ▸ hc) (by decide), fun hc => ?_,
      fun hc => absurd (h1 ▸ hc) (by decide),
      fun hc => absurd (h1 ▸ hc) (by decide),
      fun hc => absurd (h1 ▸ hc) (by decide)⟩
    rcases hc with hc | hc <;> exact absurd (h1 ▸ hc) (by decide)
  · rw [if_neg h1]
    by_cases h2 : it.itemId = "defense_potion"
    · rw [if_pos h2]
      unfold useDefensePotionAt
      rw [hg]
      dsimp only
      refine ⟨fun hf2 => by simp at hf2, fun hc => absurd (hc ▸ h2) (by simp [hc]),
        fun hc => absurd (h2 ▸ hc) (by decide), fun _ => ⟨rfl, ?_⟩,
        fun hc => absurd (h2 ▸ hc) (by decide),
        fun hc => absurd (h2 ▸ hc) (by decide),
        fun hc => absurd (h2 ▸ hc) (by decide)⟩
      exact removeItemAt_one_t { st.player with
        tempBuffs := buffSet st.player.tempBuffs "defense" (itemPowerOf it) 15 }
        idx it hg
    · rw [if_neg h2]
      by_cases h3 : it.itemId = "hp_boost_potion"
      · rw [if_pos h3]
        unfold useHpBoostPotionAt
        rw [hg]
        dsimp only
        refine ⟨fun hf2 => by simp at hf2,
          fun hc => absurd (hc ▸ h3) (by simp [hc]),
          fun hc => absurd (h3 ▸ hc) (by decide), fun _ => ⟨rfl, ?_⟩,
          fun hc => absurd (h3 ▸ hc) (by decide),
          fun hc => absurd (h3 ▸ hc) (by decide),
          fun hc => absurd (h3 ▸ hc) (by decide)⟩
        exact removeItemAt_one_t { st.player with
          hp := getMaxHp { st.player with
            tempBuffs := buffSet st.player.tempBuffs "hp"
              (itemPowerOf it) 15 } ⊓ (st.player.hp + itemPowerOf it),
          tempBuffs := buffSet st.player.tempBuffs "hp"
            (itemPowerOf it) 15 } idx it hg
      · rw [if_neg h3]
        by_cases h4 : it.itemId = "summon"
        · obtain ⟨hiff, hfail, hcons⟩ := useScroll_spec_t st idx it hg
          rw [if_pos h4]
          refine ⟨hfail, fun hc => absurd (hc ▸ h4) (by simp [hc]),
            fun _ => ⟨hiff, hcons⟩, fun hc => ?_,
            fun hc => absurd (h4 ▸ hc) (by decide),
            fun hc => absurd (h4 ▸ hc) (by decide),
            fun hc => absurd (h4 ▸ hc) (by decide)⟩
          rcases hc with hc | hc <;> exact absurd (h4 ▸ hc) (by decide)
        · rw [if_neg h4]
          by_cases h5 : it.itemId = "sword"
          · rw [if_pos h5]
            unfold equipWeaponAt
            rw [hg]
            dsimp only
            refine ⟨fun hf2 => by simp at hf2,
              fun hc => absurd (hc ▸ h5) (by simp [hc]),
              fun hc => absurd (h5 ▸ hc) (by decide), fun hc => ?_,
              fun _ => ⟨rfl, ?_⟩,
              fun hc => absurd (h5 ▸ hc) (by decide),
              fun hc => absurd (h5 ▸ hc) (by decide)⟩
            · rcases hc with hc | hc <;> exact absurd (h5 ▸ hc) (by decide)
            · cases hw : st.player.equippedWeapon with
              | none =>
                exact removeItemAt_one_t
                  { st.player with equippedWeapon := some it } idx it hg
              | some w =>
                have hg2 : (st.player.inventory ++ [w]).get? idx =
                    some it := by
                  rw [List.get?_append hidx]
                  exact hg
                exact removeItemAt_one_t { st.player with
                  inventory := st.player.inventory ++ [w],
                  equippedWeapon := some it } idx it hg2
          · rw [if_neg h5]
            by_cases h6 : it.itemId = "shield"
            · rw [if_pos h6]
              unfold equipArmorAt
              rw [hg]
              dsimp only
              refine ⟨fun hf2 => by simp at hf2,
                fun hc => absurd (hc ▸ h6) (by simp [hc]),
                fun hc => absurd (h6 ▸ hc) (by decide), fun hc => ?_,
                fun hc => absurd (h6 ▸ hc) (by decide),
                fun _ => ⟨rfl, ?_⟩,
                fun hc => absurd (h6 ▸ hc) (by decide)⟩
              · rcases hc with hc | hc <;> exact absurd (h6 ▸ hc) (by decide)
              · cases ha : st.player.equippedArmor with
                | none =>
                  exact removeItemAt_one_t
                    { st.player with equippedArmor := some it } idx it hg
                | some a =>
                  have hg2 : (st.player.inventory ++ [a]).get? idx =
                      some it := by
                    rw [List.get?_append hidx]
                    exact hg
                  exact removeItemAt_one_t { st.player with
                    inventory := st.player.inventory ++ [a],
                    equippedArmor := some it } idx it hg2
            · rw [if_neg h6]
              exact ⟨fun _ => rfl, fun hc => absurd hc h1,
                fun hc => absurd hc h4, fun hc => hc.elim (absurd · h2)
                  (absurd · h3), fun hc => absurd hc h5,
                fun hc => absurd hc h6, fun _ => ⟨rfl, rfl⟩⟩

theorem buffAmount_buffSet_self_t (bs : List (String × Int × Int))
    (k : String) (a s : Int) : buffAmount (buffSet bs k a s) k = a := by
  induction bs with
  | nil => simp [buffSet, buffAmount, List.find?]
  | cons b rest ih =>
    by_cases hb : b.1 = k
    · simp [buffSet, hb, buffAmount, List.find?]
    · simp only [buffSet, if_neg hb]
      simp only [buffAmount, List.find?] at ih ⊢
      simp [hb, ih]

theorem buffAmount_buffSet_ne_t (bs : List (String × Int × Int))
    (k k' : String) (a s : Int) (h : k' ≠ k) :
    buffAmount (buffSet bs k a s) k' = buffAmount bs k' := by
  induction bs with
  | nil => simp [buffSet, buffAmount, List.find?, Ne.symm h]
  | cons b rest ih =>
    by_cases hb : b.1 = k
    · simp only [buffSet, if_pos hb, buffAmount, List.find?]
      have h1 : (k = k') = False := by simp [Ne.symm h]
      have h2 : (b.1 = k') = False := by simp [hb, Ne.symm h]
      simp [h1, h2]
    · simp only [buffSet, if_neg hb, buffAmount, List.find?] at ih ⊢
      by_cases hb' : b.1 = k'
      · simp [hb']
      · simp [hb', ih]

theorem buffAmount_nonneg_t (bs : List (String × Int × Int)) (k : String)
    (h : ∀ b ∈ bs, 0 ≤ b.2.1) : 0 ≤ buffAmount bs k := by
  induction bs with
  | nil => simp [buffAmount, List.find?]
  | cons b rest ih =>
    have ih2 := ih (fun e he => h e (List.mem_cons_of_mem b he))
    by_cases hb : b.1 = k
    · simpa [buffAmount, List.find?, hb] using h b (List.mem_cons_self b rest)
    · simpa [buffAmount, List.find?, hb] using ih2

theorem itemPower_nonneg_t (itemId : String) (lv : Int) (h : 1 ≤ lv) :
    0 ≤ itemPower itemId lv := by
  unfold itemPower
  split_ifs <;> omega

theorem removeItemAt_hp_t (p : PlayerSt) (idx : Nat) (q : Int) :
    (removeItemAt p idx q).hp = p.hp := by
  unfold removeItemAt
  split
  · rfl
  · split
    · split <;> rfl
    · rfl

theorem removeItemAt_maxHp_t (p : PlayerSt) (idx : Nat) (q : Int) :
    (removeItemAt p idx q).maxHp = p.maxHp := by
  unfold removeItemAt
  split
  · rfl
  · split
    · split <;> rfl
    · rfl

theorem removeItemAt_tempBuffs_t (p : PlayerSt) (idx : Nat) (q : Int) :
    (removeItemAt p idx q).tempBuffs = p.tempBuffs := by
  unfold removeItemAt
  split
  · rfl
  · split
    · split <;> rfl
    · rfl

/-- Claim C7, amended: from any state with `0 ≤ hp ≤ max_hp + hp-buff`,
nonnegative base max-hp and nonnegative buff magnitudes, taking any
nonnegative damage and using any potion keep hp within
`[0, max_hp + active hp-buff]`, and buff decay keeps hp nonnegative (the
upper bound after decay is NOT claimed: the counterexample shows expiry
can strand hp above it). -/
theorem c7_hp_bounds (p : PlayerSt)
    (hp0 : 0 ≤ p.hp) (hpm : p.hp ≤ getMaxHp p) (hm0 : 0 ≤ p.maxHp)
    (hb : ∀ b ∈ p.tempBuffs, 0 ≤ b.2.1) :
    (∀ d : Int, 0 ≤ d →
      0 ≤ (takeDamageHp p.hp d).1 ∧ (takeDamageHp p.hp d).1 ≤ getMaxHp p) ∧
    (∀ idx it, p.inventory.get? idx = some it → 1 ≤ it.level →
      (0 ≤ (useHealthPotionAt p idx).1.hp ∧
        (useHealthPotionAt p idx).1.hp ≤
          getMaxHp (useHealthPotionAt p idx).1) ∧
      (0 ≤ (useDefensePotionAt p idx).1.hp ∧
        (useDefensePotionAt p idx).1.hp ≤
          getMaxHp (useDefensePotionAt p idx).1) ∧
      (0 ≤ (useHpBoostPotionAt p idx).1.hp ∧
        (useHpBoostPotionAt p idx).1.hp ≤
          getMaxHp (useHpBoostPotionAt p idx).1)) ∧
    0 ≤ (updateBuffs p).1.hp := by
  have hga : 0 ≤ buffAmount p.tempBuffs "hp" := buffAmount_nonneg_t _ _ hb
  have hpm2 : p.hp ≤ p.maxHp + buffAmount p.tempBuffs "hp" := hpm
  refine ⟨?_, ?_, hp0⟩
  · intro d hd
    simp only [takeDamageHp]
    refine ⟨le_max_right _ _, ?_⟩
    apply max_le
    · simp only [getMaxHp]
      omega
    · simp only [getMaxHp]
      omega
  · intro idx it hg hlv
    have hpow : 0 ≤ itemPowerOf it := itemPower_nonneg_t it.itemId it.level hlv
    refine ⟨?_, ?_, ?_⟩
    · unfold useHealthPotionAt
      rw [hg]
      split_ifs with hfull
      · exact ⟨hp0, hpm⟩
      · simp only [removeItemAt_hp_t, removeItemAt_maxHp_t,
          removeItemAt_tempBuffs_t, getMaxHp]
        constructor
        · exact le_min (by omega) (by omega)
        · have h2 := min_le_left p.maxHp (p.hp + itemPowerOf it)
          omega
    · unfold useDefensePotionAt
      rw [hg]
      simp only [removeItemAt_hp_t, removeItemAt_maxHp_t,
        removeItemAt_tempBuffs_t, getMaxHp]
      rw [buffAmount_buffSet_ne_t p.tempBuffs "defense" "hp" _ _ (by decide)]
      exact ⟨hp0, hpm2⟩
    · unfold useHpBoostPotionAt
      rw [hg]
      simp only [removeItemAt_hp_t, removeItemAt_maxHp_t,
        removeItemAt_tempBuffs_t, getMaxHp]
      simp only [buffAmount_buffSet_self_t]
      constructor
      · exact le_min (by omega) (by omega)
      · exact min_le_left _ _

/-- Claim C9: with the inventory at its 10-slot capacity, `add_item`
returns failure and leaves the inventory unchanged (length still 10) for
every added item — the capacity check precedes the stack-merge check, so
this holds even for a stackable item matching an existing slot. -/
theorem c9_full_inventory_add_fails (p : PlayerSt) (it : Item)
    (h : p.inventory.length = inventorySize) :
    addItem p it = (false, p) ∧
    (addItem p it).2.inventory.length = inventorySize := by
  have hge : p.inventory.length ≥ inventorySize := le_of_eq h.symm
  constructor
  · simp [addItem, hge]
  · simp [addItem, hge, h]

/-- Claim C9: with the inventory at its 10-slot capacity, `add_item`
returns failure and leaves the inventory unchanged (length still 10) for
every added item — the capacity check precedes the stack-merge check, so
this holds even for a stackable item matching an existing slot. -/
theorem c9_full_inventory_add_fails_witness : addItem pC9 ⟨0, 0, "sword", 1, 1⟩ = (false, pC9) :=
  (c9_full_inventory_add_fails pC9 ⟨0, 0, "sword", 1, 1⟩ (by decide)).1

/-- Claim C6, amended: when a monster attacks the player, the player's
hp drops by `max(1, atk - eff_def)` (floored at 0 hp), where `eff_def` is
the binary64 evaluation of `int(defense * max(0.3, 1.0 - (level-1)*0.1))`
— and in the claim's worked example (level 5, defense 10) the float and
exact values agree: effective defense 6. -/
theorem c6_monster_damage_formula :
    (∀ (st : GameState) (eid : Nat) (m : Monster),
        findMonster st eid = some m →
        (doCombat st (.monsterRef eid) .player).player.hp =
          max (st.player.hp -
            max 1 (m.atk - effectiveDefenseF (getDefense st.player) m.level)) 0) ∧
    effectiveDefenseF 10 5 = 6 := by
  constructor
  · intro st eid m h
    unfold doCombat
    dsimp only
    rw [h]
    dsimp only [Option.elim, takeDamageHp]
    split <;> rfl
  · decide

theorem stackInto_first_t (it : Item) :
    ∀ (l : List Item) (idx : Nat) (ex : Item),
      l.get? idx = some ex →
      ex.itemId = it.itemId → itemStackable ex.itemId = true →
      (∀ j, j < idx → ∀ e, l.get? j = some e →
        ¬(e.itemId = it.itemId ∧ itemStackable e.itemId = true)) →
      stackInto l it = some (l.set idx { ex with qty := ex.qty + it.qty })
  | [], idx, ex, hg, _, _, _ => by simp at hg
  | a :: as, 0, ex, hg, hid, hst, _ => by
    rw [List.get?_cons_zero] at hg
    have ha : a = ex := Option.some.inj hg
    subst ha
    rw [stackInto, if_pos ⟨hid, hst⟩, List.set]
  | a :: as, idx + 1, ex, hg, hid, hst, hf => by
    rw [List.get?_cons_succ] at hg
    have ha : ¬(a.itemId = it.itemId ∧ itemStackable a.itemId = true) :=
      hf 0 (Nat.succ_pos idx) a rfl
    have ih := stackInto_first_t it as idx ex hg hid hst
      (fun j hj e he => hf (j + 1) (Nat.succ_lt_succ hj) e he)
    rw [stackInto, if_neg ha, ih]
    rfl

/-- Claim C10: adding a stackable item to a non-full inventory whose
first stackable slot of the same item id is at `idx` merges by summing
quantities into that slot; the merged slot keeps the existing slot's
level, power and display name (the added item's level and potency are
discarded). -/
theorem c10_stackable_merge (p : PlayerSt) (it : Item) (idx : Nat) (ex : Item)
    (hlen : p.inventory.length < inventorySize)
    (hg : p.inventory.get? idx = some ex)
    (hid : ex.itemId = it.itemId) (hst : itemStackable ex.itemId = true)
    (hf : ∀ j, j < idx → ∀ e, p.inventory.get? j = some e →
      ¬(e.itemId = it.itemId ∧ itemStackable e.itemId = true)) :
    addItem p it = (true, { p with
      inventory := p.inventory.set idx { ex with qty := ex.qty + it.qty },
      itemsCollected := p.itemsCollected + it.qty }) ∧
    (p.inventory.set idx { ex with qty := ex.qty + it.qty }).get? idx =
      some { ex with qty := ex.qty + it.qty } ∧
    ({ ex with qty := ex.qty + it.qty } : Item).level = ex.level ∧
    itemPowerOf { ex with qty := ex.qty + it.qty } = itemPowerOf ex ∧
    itemName ({ ex with qty := ex.qty + it.qty } : Item).itemId
        ({ ex with qty := ex.qty + it.qty } : Item).level =
      itemName ex.itemId ex.level := by
  have hs := stackInto_first_t it p.inventory idx ex hg hid hst hf
  have hnot : ¬p.inventory.length ≥ inventorySize := by omega
  obtain ⟨hidx, -⟩ := List.get?_eq_some.1 hg
  refine ⟨?_, ?_, rfl, rfl, rfl⟩
  · unfold addItem
    rw [if_neg hnot, hs]
  · exact List.get?_set_eq_of_lt _ hidx

/-- Claim C10: adding a stackable item to a non-full inventory whose
first stackable slot of the same item id is at `idx` merges by summing
quantities into that slot; the merged slot keeps the existing slot's
level, power and display name (the added item's level and potency are
discarded). -/
theorem c10_stackable_merge_witness :
    addItem pC10 ⟨0, 0, "health_potion", 1, 3⟩ = (true, { pC10 with
      inventory := pC10.inventory.set 0
        { x := 0, y := 0, itemId := "health_potion", qty := 3, level := 1 },
      itemsCollected := 1 }) :=
  (c10_stackable_merge pC10 ⟨0, 0, "health_potion", 1, 3⟩ 0
    ⟨0, 0, "health_potion", 2, 1⟩ (by decide) (by decide) (by decide)
    (by decide) (fun j hj => absurd hj (Nat.not_lt_zero j))).1

theorem occupiedByMonster_congr :
    ∀ (m1 m2 : List Monster), m1.map stripMon = m2.map stripMon →
      ∀ x y, occupiedByMonster m1 x y = occupiedByMonster m2 x y
  | [], [], _, _, _ => rfl
  | [], b :: bs, h, _, _ => by simp at h
  | a :: as, [], h, _, _ => by simp at h
  | a :: as, b :: bs, h, x, y => by
    simp only [List.map_cons, List.cons.injEq] at h
    have ih := occupiedByMonster_congr as bs h.2 x y
    have hx : a.x = b.x := congrArg Prod.fst h.1
    have hy : a.y = b.y := congrArg (fun t => t.2.1) h.1
    simp only [occupiedByMonster, List.any_cons] at ih ⊢
    rw [hx, hy, ih]

theorem placeMonsterTry_strip :
    ∀ (fuel : Nat) (room : Room) (depth : Int) (tiles : List (List Char))
      (ps sd : Option (Int × Int)) (m1 m2 : List Monster) (s g1 g2 : RNG),
      m1.map stripMon = m2.map stripMon →
      (placeMonsterTry fuel room depth tiles ps sd m1 s g1).1.map stripMon =
        (placeMonsterTry fuel room depth tiles ps sd m2 s g2).1.map
          stripMon ∧
      (placeMonsterTry fuel room depth tiles ps sd m1 s g1).2.1 =
        (placeMonsterTry fuel room depth tiles ps sd m2 s g2).2.1
  | 0, _, _, _, _, _, _, _, _, _, _, h => ⟨h, rfl⟩
  | fuel + 1, room, depth, tiles, ps, sd, m1, m2, s, g1, g2, h => by
    simp only [placeMonsterTry]
    rw [occupiedByMonster_congr m1 m2 h]
    split
    · constructor
      · rw [List.map_append, List.map_append, h]
        exact rfl
      · rfl
    · exact placeMonsterTry_strip fuel room depth tiles ps sd m1 m2 _ g1
        g2 h

theorem monstersLoop_strip :
    ∀ (n : Nat) (rooms : List Room) (depth : Int)
      (tiles : List (List Char)) (ps sd : Option (Int × Int))
      (m1 m2 : List Monster) (s g1 g2 : RNG),
      m1.map stripMon = m2.map stripMon →
      (monstersLoop n rooms depth tiles ps sd m1 s g1).1.map stripMon =
        (monstersLoop n rooms depth tiles ps sd m2 s g2).1.map stripMon ∧
      (monstersLoop n rooms depth tiles ps sd m1 s g1).2.1 =
        (monstersLoop n rooms depth tiles ps sd m2 s g2).2.1
  | 0, _, _, _, _, _, _, _, _, _, _, h => ⟨h, rfl⟩
  | n + 1, rooms, depth, tiles, ps, sd, m1, m2, s, g1, g2, h => by
    simp only [monstersLoop]
    obtain ⟨hm, hs⟩ := placeMonsterTry_strip 20 (choice rooms defaultRoom s).1
      depth tiles ps sd m1 m2 (choice rooms defaultRoom s).2 g1 g2 h
    rw [← hs]
    exact monstersLoop_strip n rooms depth tiles ps sd _ _ _ _ _ hm

/-- Claim C4, amended: two runs of map generation with the same seed and
depth produce identical tile grids, player-start and stairs-down
positions, item lists and portal lists, and monster lists that agree in
position and species; the monsters' levels (and the stats derived from
them) may differ, because `Monster.__init__` draws its level jitter from
the module-level `random`, which is not part of the per-map seeded
stream. -/
theorem c4_generation_deterministic_up_to_jitter (cfg : Config) (width height seed depth : Int)
    (g g' : RNG) :
    (generateMap cfg width height seed depth g).1.tiles =
      (generateMap cfg width height seed depth g').1.tiles ∧
    (generateMap cfg width height seed depth g).1.playerStartPos =
      (generateMap cfg width height seed depth g').1.playerStartPos ∧
    (generateMap cfg width height seed depth g).1.stairsDownPos =
      (generateMap cfg width height seed depth g').1.stairsDownPos ∧
    (generateMap cfg width height seed depth g).1.items =
      (generateMap cfg width height seed depth g').1.items ∧
    (generateMap cfg width height seed depth g).1.portals =
      (generateMap cfg width height seed depth g').1.portals ∧
    (generateMap cfg width height seed depth g).1.monsters.map stripMon =
      (generateMap cfg width height seed depth g').1.monsters.map
        stripMon := by
  simp only [generateMap]
  split
  · exact ⟨rfl, rfl, rfl, rfl, rfl, rfl⟩
  · obtain ⟨hm, hs⟩ := monstersLoop_strip _ _ depth _ _ _ [] [] _ g g' rfl
    have hocc : occupiedByMonster
        (monstersLoop _ _ depth _ _ _ [] _ g).1 =
        occupiedByMonster (monstersLoop _ _ depth _ _ _ [] _ g').1 :=
      funext fun x => funext fun y =>
        occupiedByMonster_congr _ _ hm x y
    rw [generateMonsters, generateMonsters, hocc, hs]
    exact ⟨rfl, rfl, rfl, rfl, rfl, hm⟩

theorem itemFromJ_toJ_t (i : Item) : itemFromJ (itemToJ i) = some i := rfl

theorem portalFromJ_toJ_t (p : Int × Int × Int × Int) :
    portalFromJ (portalToJ p) = some p := rfl

theorem itemsFromJ_toJ_t :
    ∀ l : List Item, (l.map itemToJ).mapM itemFromJ = some l
  | [] => rfl
  | i :: is => by
    rw [List.map_cons, List.mapM_cons, itemFromJ_toJ_t i, itemsFromJ_toJ_t is]
    rfl

theorem buffsFromJ_toJ_t : ∀ bs : List (String × Int × Int),
    buffsFromJ (buffsToJ bs) = some bs
  | [] => rfl
  | b :: rest => by
    have ih := buffsFromJ_toJ_t rest
    unfold buffsFromJ buffsToJ at ih ⊢
    rw [List.map_cons]
    dsimp only at ih ⊢
    rw [List.mapM_cons, ih]
    rfl

theorem rngFromJ_toJ_t : ∀ l : List Nat,
    rngFromJ (l.map fun n => J.num n) = some l
  | [] => rfl
  | n :: rest => by
    have ih := rngFromJ_toJ_t rest
    show (rngFromJ (rest.map fun m => J.num m)).map
      (fun r => ((n : Int)).toNat :: r) = some (n :: rest)
    rw [ih]
    rfl

theorem equippedFromJ_none_t : equippedFromJ (some J.jnull) = some none := rfl

theorem equippedFromJ_some_t (i : Item) :
    equippedFromJ (some (itemToJ i)) = some (some i) := rfl

theorem mapMloop_items_t : ∀ (l acc : List Item),
    List.mapM.loop itemFromJ (l.map itemToJ) acc = some (acc.reverse ++ l)
  | [], acc => by simp [List.mapM.loop]
  | i :: is, acc => by
    have ih := mapMloop_items_t is (i :: acc)
    simp only [List.map_cons, List.mapM.loop, itemFromJ_toJ_t]
    simp [ih]

theorem playerFromJ_toJ_t (p : PlayerSt) :
    playerFromJ (playerToJ p) = some p := by
  obtain ⟨x, y, hp, mh, atk, dv, inv, dr, mk, ic, ew, ea, tb⟩ := p
  cases ew <;> cases ea <;>
    simp [playerFromJ, playerToJ, jLook, jNum?, jStr?,
      equippedFromJ_some_t, equippedFromJ_none_t,
      buffsFromJ_toJ_t, mapMloop_items_t]

theorem monsterFromJ_toJ_t (eid : Nat) (m : Monster) (g : RNG) :
    monsterFromJ eid (monsterToJ m) g =
      (some { m with eid := eid }, (randint (-1) 2 g).2) := rfl

theorem summonFromJ_toJ_t (eid : Nat) (s : Summon) (g : RNG) :
    summonFromJ eid (summonToJ s) g =
      (some { s with eid := eid }, rngTail g) := rfl

theorem monstersFromJ_toJ_t : ∀ (l : List Monster) (eid : Nat) (g : RNG),
    ∃ ms g2, monstersFromJ (l.map monsterToJ) eid g = (some ms, g2)
  | [], _, g => ⟨[], g, rfl⟩
  | m :: rest, eid, g => by
    obtain ⟨ms, g2, ih⟩ :=
      monstersFromJ_toJ_t rest (eid + 1) (randint (-1) 2 g).2
    refine ⟨{ m with eid := eid } :: ms, g2, ?_⟩
    simp only [List.map_cons, monstersFromJ, monsterFromJ_toJ_t, ih]

theorem summonsFromJ_toJ_t : ∀ (l : List Summon) (eid : Nat) (g : RNG),
    ∃ ss g2, summonsFromJ (l.map summonToJ) eid g = (some ss, g2)
  | [], _, g => ⟨[], g, rfl⟩
  | s :: rest, eid, g => by
    obtain ⟨ss, g2, ih⟩ := summonsFromJ_toJ_t rest (eid + 1) (rngTail g)
    refine ⟨{ s with eid := eid } :: ss, g2, ?_⟩
    simp only [List.map_cons, summonsFromJ, summonFromJ_toJ_t, ih]

theorem mapMloop_portals_t : ∀ (l acc : List (Int × Int × Int × Int)),
    List.mapM.loop portalFromJ (l.map portalToJ) acc =
      some (acc.reverse ++ l)
  | [], acc => by simp [List.mapM.loop]
  | p :: ps, acc => by
    have ih := mapMloop_portals_t ps (p :: acc)
    simp only [List.map_cons, List.mapM.loop, portalFromJ_toJ_t]
    simp [ih]

theorem mapFromJ_toJ_t (cfg : Config) (m : GameMapSt) (g : RNG) :
    ∃ mp g2, mapFromJ cfg (mapToJ m) g = (some mp, g2) := by
  obtain ⟨ms, g2, hms⟩ := monstersFromJ_toJ_t m.monsters 0
    (generateMap cfg mapWidth mapHeight m.seed 1 g).2
  simp [mapFromJ, mapToJ, jLook, jNum?, jStr?, hms,
    mapMloop_items_t, mapMloop_portals_t]

/-- Claim C3: saving a session and loading the saved snapshot always
succeeds and restores the same turn counter, the same player hp (the
whole player, in fact), the same dungeon depth, and the same session RNG
stream `global_rng` — so the restored RNG's next draw equals the draw the
original would have produced. -/
theorem c3_save_load_roundtrip (cfg : Config) (st0 st : GameState) :
    ∃ st1, loadGameState cfg st0 (saveGameState st) = some st1 ∧
      st1.turnCount = st.turnCount ∧ st1.player.hp = st.player.hp ∧
      st1.dungeonDepth = st.dungeonDepth ∧ st1.sG = st.sG := by
  obtain ⟨mp, g2, hmp⟩ := mapFromJ_toJ_t cfg st.currentMap st0.sg
  obtain ⟨ss, g3, hss⟩ := summonsFromJ_toJ_t st.summons st0.nextEid g2
  have hr := rngFromJ_toJ_t st.sG
  simp at hr
  simp [loadGameState, saveGameState, jLook, jNum?, jStr?,
    playerFromJ_toJ_t, hr, hmp, hss]

/-- Witness for C7: the bounds theorem applied to a fresh player. -/
theorem c7_hp_bounds_witness :
    0 ≤ (mkPlayer 1 1).hp ∧ 0 ≤ (updateBuffs (mkPlayer 1 1)).1.hp :=
  ⟨by decide, (c7_hp_bounds (mkPlayer 1 1) (by decide) (by decide)
    (by decide) (by simp [mkPlayer])).2.2⟩

/-- Witness for C8: the dispatch theorem applied to `stC8`'s health
potion (slot 0, player at 20/30 hp). -/
theorem c8_item_use_semantics_witness :
    stC8.player.inventory.get? 0 =
      some ⟨0, 0, "health_potion", 2, 1⟩ ∧
    ((itemUse stC8 0).2 = true ↔ stC8.player.hp < stC8.player.maxHp) :=
  ⟨rfl, ((c8_item_use_semantics stC8 0 ⟨0, 0, "health_potion", 2, 1⟩
    rfl).2.1 rfl).1⟩

end TermDungeon
